import Mathlib

/-!
# Rewrite filters of the instaweb rewriter: OutlineFilter and ImgRewriteFilter

A shallow embedding of `rewriter/outline_filter.cc` and
`rewriter/img_rewrite_filter.cc`, and of the cache-composing fetcher declared in
`util/public/cache_url_fetcher.h`.

The filters talk to collaborators whose code is not part of the embedded
sources (HtmlParse, ResourceManager, OutputResource, MessageHandler).  Every
call a filter makes on a collaborator is appended to a trace (`List Call`),
and every answer a collaborator gives is read from a `Collaborators` record
whose functions may depend on the whole trace so far.  A handler of the C++
code therefore becomes a function from the filter state and the trace to the
new filter state and the new trace.
-/

namespace net_instaweb

/-! ## Data model -/

/-- Interned string (util/public/atom.h); atoms are compared for equality only. -/
abbrev Atom := String

/-- Modelled from the spec: HtmlParse::Intern is not under src/; section 9 allows
comparing plain strings, so interning a string yields the string itself. -/
def Intern (name : String) : Atom := name

/-- HtmlElement::Attribute: name, value and quote style. -/
structure Attribute where
  name : Atom
  value : String
  quote : String
deriving DecidableEq, Repr

/-- HtmlElement: `addr` is the address of the node (the C++ code compares element
pointers), `tag` its tag name, `attributes` its ordered attribute sequence. -/
structure HtmlElement where
  addr : Nat
  tag : Atom
  attributes : List Attribute
deriving DecidableEq, Repr

/-- Modelled from the spec: HtmlElement::AddAttribute is not under src/; it adds
one attribute at the end of the ordered attribute sequence. -/
def HtmlElement.AddAttribute (e : HtmlElement) (name : Atom) (value quote : String) :
    HtmlElement :=
  { e with attributes := e.attributes ++ [⟨name, value, quote⟩] }

/-- Modelled from the spec: HtmlElement::FirstAttributeWithName is not under
src/; it yields the first attribute of the sequence carrying the given name, or
NULL (none). -/
def HtmlElement.FirstAttributeWithName (e : HtmlElement) (name : Atom) : Option Attribute :=
  e.attributes.find? (fun a => a.name == name)

/-- The content types named by the two filters (util/public/content_type.h). -/
inductive ContentType where
  | kContentTypeCss
  | kContentTypeJavascript
  | kContentTypePng
  | kContentTypeJpeg
deriving DecidableEq, Repr

/-- Severity of a message handed to the MessageHandler. -/
inductive MessageType where
  | kInfo
  | kWarning
  | kError
  | kFatal
deriving DecidableEq, Repr

/-- OutputResource handle as returned by the ResourceManager.  The class is not
under src/: a handle is described by the answers its methods give when the
filter calls them (each filter uses a fresh handle and calls each method at most
once). -/
structure OutputResource where
  StartWrite : Bool
  WriteChunk : Bool
  EndWrite : Bool
  IsReadable : Bool
  url : String
deriving DecidableEq, Repr

/-- InputResource::ImageType, the classification of the bytes of an input
resource. -/
inductive ImageType where
  | IMAGE_UNKNOWN
  | IMAGE_JPEG
  | IMAGE_PNG
  | IMAGE_GIF
deriving DecidableEq, Repr

/-- InputResource handle as returned by the ResourceManager.  The class is not
under src/ (only UrlInputResource's declaration is): a handle is described by the
answers its methods give when ImgRewriteFilter calls them. -/
structure InputResource where
  Read : Bool
  ContentsValid : Bool
  image_type : ImageType
  contents : String
  url : String
deriving DecidableEq, Repr

/-- The readers handed to PngOptimizer::OptimizePng (png_optimizer.h:60-86 declares
the interface): the default PngReader and the GifReader. -/
inductive PngReaderInterface where
  | PngReader
  | GifReader
deriving DecidableEq, Repr

/-- A value formatted into a message. -/
inductive Arg where
  | str (s : String)
  | element (e : HtmlElement)
deriving DecidableEq, Repr

/-- One call made by a filter on a collaborator. -/
inductive Call where
  | Message (type : MessageType) (format : String) (args : List Arg)
  | IsRewritable (e : HtmlElement)
  | CreateOutputResource (content_type : ContentType) (resource : OutputResource)
  | GenerateOutputResource (content_type : ContentType) (resource : OutputResource)
  | StartWrite (resource : OutputResource)
  | WriteChunk (resource : OutputResource) (content : String)
  | EndWrite (resource : OutputResource)
  | IsReadable (resource : OutputResource)
  | NewElement (tag : Atom) (addr : Nat)
  | DeleteElement (e : HtmlElement) (deleted : Bool)
  | InsertElementBeforeCurrent (e : HtmlElement)
  | CreateInputResource (url : String) (resource : Option InputResource)
  | Read (resource : InputResource)
  | OptimizeJpeg (contents : String) (optimized : Option String)
  | OptimizePng (reader : PngReaderInterface) (contents : String)
      (optimized : Option String)
deriving DecidableEq, Repr

/-- The answers of the collaborators; each may depend on every call made so far. -/
structure Collaborators where
  IsRewritable : List Call → HtmlElement → Bool
  DeleteElement : List Call → HtmlElement → Bool
  NewElement : List Call → Atom → Nat
  CreateOutputResource : List Call → ContentType → OutputResource
  GenerateOutputResource : List Call → ContentType → OutputResource

/-- The answers of the collaborators used by ImgRewriteFilter only.
`ParseImgElement` is ImgFilter::ParseImgElement (the src attribute of an img
element, or NULL); `OptimizeJpeg` and `OptimizePng` are the opaque optimizers of
pagespeed::image_compression, yielding the optimized bytes on success;
`filename` is HtmlParse::filename. -/
structure ImgCollaborators where
  ParseImgElement : HtmlElement → Option Attribute
  CreateInputResource : List Call → String → Option InputResource
  OptimizeJpeg : String → Option String
  OptimizePng : PngReaderInterface → String → Option String
  filename : String

/-- HtmlParse::ErrorHere. -/
def ErrorHere (format : String) (args : List Arg) : Call :=
  Call.Message MessageType.kError format args

/-- HtmlParse::InfoHere. -/
def InfoHere (format : String) (args : List Arg) : Call :=
  Call.Message MessageType.kInfo format args

/-- HtmlParse::FatalErrorHere. -/
def FatalErrorHere (format : String) (args : List Arg) : Call :=
  Call.Message MessageType.kFatal format args

/-- HtmlParse::Info(file, line, format, ...); the file name is kept as the first
formatted value. -/
def Info (file : String) (format : String) (args : List Arg) : Call :=
  Call.Message MessageType.kInfo format (Arg.str file :: args)

/-- HtmlParse::Warning(file, line, format, ...). -/
def Warning (file : String) (format : String) (args : List Arg) : Call :=
  Call.Message MessageType.kWarning format (Arg.str file :: args)

/-! ## ImgRewriteFilter (img_rewrite_filter.cc) -/

namespace ImgRewriteFilter

/-- ImgRewriteFilter::WriteBytesWithExtension (img_rewrite_filter.cc:39-60):
yields the src attribute after the call and the extended trace. -/
def WriteBytesWithExtension (env : Collaborators) (t : List Call)
    (content_type : ContentType) (contents : String) (src : Attribute) :
    Attribute × List Call :=
  let output_image := env.GenerateOutputResource t content_type
  let t1 := t ++ [Call.GenerateOutputResource content_type output_image,
                  Call.StartWrite output_image]
  let written := output_image.StartWrite
  let (written, t2) :=
    if written then
      (output_image.WriteChunk, t1 ++ [Call.WriteChunk output_image contents])
    else (written, t1)
  let (written, t3) :=
    if written then
      (output_image.EndWrite, t2 ++ [Call.EndWrite output_image])
    else (written, t2)
  let t4 := if written then t3 ++ [Call.IsReadable output_image] else t3
  if written && output_image.IsReadable then
    let url := output_image.url
    ({ src with value := url },
     t4 ++ [Info src.value "Remapped to %s" [Arg.str url]])
  else
    (src, t4)

/-- The value of the local `written` of WriteBytesWithExtension after the three
write steps (img_rewrite_filter.cc:45-52): each step is attempted only when the
steps before it answered true. -/
def written (output_image : OutputResource) : Bool :=
  let written := output_image.StartWrite
  let written := if written then output_image.WriteChunk else written
  let written := if written then output_image.EndWrite else written
  written

/-- The macro defined at img_rewrite_filter.cc:18. -/
def PAGESPEED_PNG_OPTIMIZER_GIF_READER : Nat := 0

/-- ImgRewriteFilter::OptimizePng (img_rewrite_filter.cc:62-70). -/
def OptimizePng (env : Collaborators) (img : ImgCollaborators) (t : List Call)
    (reader : PngReaderInterface) (src : Attribute) (img_resource : InputResource) :
    Attribute × List Call :=
  let optimized := img.OptimizePng reader img_resource.contents
  let t := t ++ [Call.OptimizePng reader img_resource.contents optimized]
  match optimized with
  | some optimized_contents =>
    WriteBytesWithExtension env t ContentType.kContentTypePng optimized_contents src
  | none => (src, t)

/-- ImgRewriteFilter::OptimizeJpeg (img_rewrite_filter.cc:72-79). -/
def OptimizeJpeg (env : Collaborators) (img : ImgCollaborators) (t : List Call)
    (src : Attribute) (img_resource : InputResource) : Attribute × List Call :=
  let optimized := img.OptimizeJpeg img_resource.contents
  let t := t ++ [Call.OptimizeJpeg img_resource.contents optimized]
  match optimized with
  | some optimized_contents =>
    WriteBytesWithExtension env t ContentType.kContentTypeJpeg optimized_contents src
  | none => (src, t)

/-- ImgRewriteFilter::OptimizeImgResource (img_rewrite_filter.cc:81-107); the
GIF case is compiled under `#if PAGESPEED_PNG_OPTIMIZER_GIF_READER`. -/
def OptimizeImgResource (env : Collaborators) (img : ImgCollaborators) (t : List Call)
    (src : Attribute) (img_resource : InputResource) : Attribute × List Call :=
  match img_resource.image_type with
  | ImageType.IMAGE_JPEG => OptimizeJpeg env img t src img_resource
  | ImageType.IMAGE_PNG =>
    OptimizePng env img t PngReaderInterface.PngReader src img_resource
  | ImageType.IMAGE_GIF =>
    if PAGESPEED_PNG_OPTIMIZER_GIF_READER ≠ 0 then
      OptimizePng env img t PngReaderInterface.GifReader src img_resource
    else (src, t)
  | ImageType.IMAGE_UNKNOWN =>
    (src, t ++ [Info img_resource.url "Can\x27t recognize image format" []])

/-- ImgRewriteFilter::EndElement (img_rewrite_filter.cc:109-141): yields the src
attribute after the call (none when the element is not an image) and the
extended trace. -/
def EndElement (env : Collaborators) (img : ImgCollaborators) (t : List Call)
    (element : HtmlElement) : Option Attribute × List Call :=
  match img.ParseImgElement element with
  | none => (none, t)
  | some src =>
    let t := t ++ [Info img.filename "Found image: %s" [Arg.element element]]
    let img_resource := img.CreateInputResource t src.value
    let t := t ++ [Call.CreateInputResource src.value img_resource]
    match img_resource with
    | none => (some src, t ++ [Warning src.value "Img contents weren\x27t loaded" []])
    | some img_resource =>
      let t := t ++ [Call.Read img_resource]
      if img_resource.Read then
        if img_resource.ContentsValid then
          let r := OptimizeImgResource env img t src img_resource
          (some r.1, r.2)
        else
          (some src, t ++ [Warning img_resource.url "Img contents are invalid." []])
      else
        (some src, t ++ [Warning src.value "Img contents weren\x27t loaded" []])

/-- ImgRewriteFilter::Flush (img_rewrite_filter.cc:143-145). -/
def Flush (t : List Call) : List Call := t

end ImgRewriteFilter

/-! ## OutlineFilter (outline_filter.cc) -/

def kTextCss : String := "text/css"
def kTextJavascript : String := "text/javascript"
def kStylesheet : String := "stylesheet"

def s_link_ : Atom := Intern "link"
def s_script_ : Atom := Intern "script"
def s_style_ : Atom := Intern "style"
def s_rel_ : Atom := Intern "rel"
def s_href_ : Atom := Intern "href"
def s_src_ : Atom := Intern "src"
def s_type_ : Atom := Intern "type"

/-- The quote style given to the synthesized attributes: a single quote. -/
def kSingleQuote : String := "\x27"

/-- State of an OutlineFilter: `inline_element_` holds the address of the element
being buffered (none is NULL). -/
structure OutlineFilter where
  inline_element_ : Option Nat
  buffer_ : String
  outline_styles_ : Bool
  outline_scripts_ : Bool
deriving DecidableEq, Repr

namespace OutlineFilter

/-- OutlineFilter::OutlineFilter (outline_filter.cc:21-37). -/
def new (outline_styles outline_scripts : Bool) : OutlineFilter :=
  { inline_element_ := none, buffer_ := "",
    outline_styles_ := outline_styles, outline_scripts_ := outline_scripts }

/-- OutlineFilter::StartDocument (outline_filter.cc:39-42). -/
def StartDocument (f : OutlineFilter) (t : List Call) : OutlineFilter × List Call :=
  ({ f with inline_element_ := none, buffer_ := "" }, t)

/-- The loop of StartElement (outline_filter.cc:61-65): every attribute named src
resets `inline_element_` to NULL. -/
def srcLoop (attributes : List Attribute) (inline_element : Option Nat) : Option Nat :=
  attributes.foldl (fun cur a => if a.name = s_src_ then none else cur) inline_element

/-- OutlineFilter::StartElement (outline_filter.cc:44-67). -/
def StartElement (f : OutlineFilter) (t : List Call) (element : HtmlElement) :
    OutlineFilter × List Call :=
  let (f, t) :=
    if f.inline_element_ ≠ none then
      ({ f with inline_element_ := none, buffer_ := "" },
       t ++ [ErrorHere "Tag \x27%s\x27 found inside style/script." [Arg.str element.tag]])
    else (f, t)
  if f.outline_styles_ && element.tag = s_style_ then
    ({ f with inline_element_ := some element.addr, buffer_ := "" }, t)
  else if f.outline_scripts_ && element.tag = s_script_ then
    ({ f with inline_element_ := srcLoop element.attributes (some element.addr),
              buffer_ := "" }, t)
  else (f, t)

/-- OutlineFilter::WriteResource (outline_filter.cc:137-144): the three steps are
all performed; the result is the conjunction of their answers. -/
def WriteResource (t : List Call) (content : String) (resource : OutputResource) :
    Bool × List Call :=
  let write_worked := resource.StartWrite
  let t := t ++ [Call.StartWrite resource]
  let write_worked := write_worked && resource.WriteChunk
  let t := t ++ [Call.WriteChunk resource content]
  let write_worked := write_worked && resource.EndWrite
  let t := t ++ [Call.EndWrite resource]
  (write_worked, t)

/-- The attribute-copying loop of OutlineStyle and OutlineScript
(outline_filter.cc:164-167 and 205-208). -/
def copyAttributes (target : HtmlElement) (attributes : List Attribute) : HtmlElement :=
  attributes.foldl (fun e attr => e.AddAttribute attr.name attr.value attr.quote) target

/-- The type test shared by OutlineStyle and OutlineScript:
`type == NULL || strcmp(type->value(), expected) == 0`. -/
def typeMatches (type : Option Attribute) (expected : String) : Bool :=
  match type with
  | none => true
  | some a => a.value = expected

/-- OutlineFilter::OutlineStyle (outline_filter.cc:147-186). -/
def OutlineStyle (env : Collaborators) (t : List Call) (style_element : HtmlElement)
    (content : String) : List Call :=
  let rewritable := env.IsRewritable t style_element
  let t := t ++ [Call.IsRewritable style_element]
  if rewritable then
    let type := style_element.FirstAttributeWithName s_type_
    if typeMatches type kTextCss then
      let resource := env.CreateOutputResource t ContentType.kContentTypeCss
      let t := t ++ [Call.CreateOutputResource ContentType.kContentTypeCss resource]
      let (write_worked, t) := WriteResource t content resource
      if write_worked then
        let link_element : HtmlElement :=
          { addr := env.NewElement t s_link_, tag := s_link_, attributes := [] }
        let t := t ++ [Call.NewElement s_link_ link_element.addr]
        let link_element := link_element.AddAttribute s_rel_ kStylesheet kSingleQuote
        let link_element := link_element.AddAttribute s_href_ resource.url kSingleQuote
        let link_element := copyAttributes link_element style_element.attributes
        let deleted := env.DeleteElement t style_element
        let t := t ++ [Call.DeleteElement style_element deleted]
        let t := if !deleted then t ++ [FatalErrorHere "Failed to delete element" []] else t
        t ++ [Call.InsertElementBeforeCurrent link_element]
      else
        t ++ [ErrorHere "Failed to write style resource." []]
    else
      t ++ [InfoHere "Cannot outline non-css stylesheet %s" [Arg.element style_element]]
  else t

/-- OutlineFilter::OutlineScript (outline_filter.cc:190-227). -/
def OutlineScript (env : Collaborators) (t : List Call) (element : HtmlElement)
    (content : String) : List Call :=
  let rewritable := env.IsRewritable t element
  let t := t ++ [Call.IsRewritable element]
  if rewritable then
    let type := element.FirstAttributeWithName s_type_
    if typeMatches type kTextJavascript then
      let resource := env.CreateOutputResource t ContentType.kContentTypeJavascript
      let t := t ++ [Call.CreateOutputResource ContentType.kContentTypeJavascript resource]
      let (write_worked, t) := WriteResource t content resource
      if write_worked then
        let src_element : HtmlElement :=
          { addr := env.NewElement t s_script_, tag := s_script_, attributes := [] }
        let t := t ++ [Call.NewElement s_script_ src_element.addr]
        let src_element := src_element.AddAttribute s_src_ resource.url kSingleQuote
        let src_element := copyAttributes src_element element.attributes
        let deleted := env.DeleteElement t element
        let t := t ++ [Call.DeleteElement element deleted]
        let t := if !deleted then t ++ [FatalErrorHere "Failed to delete element" []] else t
        t ++ [Call.InsertElementBeforeCurrent src_element]
      else
        t ++ [ErrorHere "Failed to write script resource." []]
    else
      t ++ [InfoHere "Cannot outline non-javascript script %s" [Arg.element element]]
  else t

/-- OutlineFilter::EndElement (outline_filter.cc:69-90).  When the element ended
is the buffered one, `inline_element_` points at `element` itself, so its tag is
read from `element`. -/
def EndElement (env : Collaborators) (f : OutlineFilter) (t : List Call)
    (element : HtmlElement) : OutlineFilter × List Call :=
  match f.inline_element_ with
  | none => (f, t)
  | some inline_element =>
    let t :=
      if element.addr ≠ inline_element then
        t ++ [ErrorHere "Tag \x27%s\x27 found inside style/script." [Arg.str element.tag]]
      else if element.tag = s_style_ then
        OutlineStyle env t element f.buffer_
      else if element.tag = s_script_ then
        OutlineScript env t element f.buffer_
      else
        t ++ [ErrorHere
          "OutlineFilter::inline_element_ Expected: \x27style\x27 or \x27script\x27, Actual: \x27%s\x27"
          [Arg.str element.tag]]
    ({ f with inline_element_ := none, buffer_ := "" }, t)

/-- OutlineFilter::Flush (outline_filter.cc:92-96). -/
def Flush (f : OutlineFilter) (t : List Call) : OutlineFilter × List Call :=
  ({ f with inline_element_ := none, buffer_ := "" }, t)

/-- OutlineFilter::Characters (outline_filter.cc:99-103). -/
def Characters (f : OutlineFilter) (t : List Call) (characters : String) :
    OutlineFilter × List Call :=
  if f.inline_element_ ≠ none then ({ f with buffer_ := f.buffer_ ++ characters }, t)
  else (f, t)

/-- OutlineFilter::IgnorableWhitespace (outline_filter.cc:105-109). -/
def IgnorableWhitespace (f : OutlineFilter) (t : List Call) (whitespace : String) :
    OutlineFilter × List Call :=
  if f.inline_element_ ≠ none then ({ f with buffer_ := f.buffer_ ++ whitespace }, t)
  else (f, t)

/-- OutlineFilter::Comment (outline_filter.cc:112-118). -/
def Comment (f : OutlineFilter) (t : List Call) (_comment : String) :
    OutlineFilter × List Call :=
  if f.inline_element_ ≠ none then
    ({ f with inline_element_ := none, buffer_ := "" },
     t ++ [ErrorHere "Comment found inside style/script." []])
  else (f, t)

/-- OutlineFilter::Cdata (outline_filter.cc:120-126). -/
def Cdata (f : OutlineFilter) (t : List Call) (_cdata : String) :
    OutlineFilter × List Call :=
  if f.inline_element_ ≠ none then
    ({ f with inline_element_ := none, buffer_ := "" },
     t ++ [ErrorHere "CDATA found inside style/script." []])
  else (f, t)

/-- OutlineFilter::IEDirective (outline_filter.cc:128-134). -/
def IEDirective (f : OutlineFilter) (t : List Call) (_directive : String) :
    OutlineFilter × List Call :=
  if f.inline_element_ ≠ none then
    ({ f with inline_element_ := none, buffer_ := "" },
     t ++ [ErrorHere "IE Directive found inside style/script." []])
  else (f, t)

end OutlineFilter

/-! ## Event stream delivered to the OutlineFilter -/

/-- One event of the HtmlFilter interface, as delivered by the parser. -/
inductive Event where
  | StartDocument
  | StartElement (element : HtmlElement)
  | EndElement (element : HtmlElement)
  | Flush
  | Characters (characters : String)
  | IgnorableWhitespace (whitespace : String)
  | Comment (comment : String)
  | Cdata (cdata : String)
  | IEDirective (directive : String)
deriving DecidableEq, Repr

/-- Dispatch of one event to its handler. -/
def OutlineFilter.handle (env : Collaborators) (s : OutlineFilter × List Call) :
    Event → OutlineFilter × List Call
  | Event.StartDocument => OutlineFilter.StartDocument s.1 s.2
  | Event.StartElement e => OutlineFilter.StartElement s.1 s.2 e
  | Event.EndElement e => OutlineFilter.EndElement env s.1 s.2 e
  | Event.Flush => OutlineFilter.Flush s.1 s.2
  | Event.Characters c => OutlineFilter.Characters s.1 s.2 c
  | Event.IgnorableWhitespace w => OutlineFilter.IgnorableWhitespace s.1 s.2 w
  | Event.Comment c => OutlineFilter.Comment s.1 s.2 c
  | Event.Cdata c => OutlineFilter.Cdata s.1 s.2 c
  | Event.IEDirective d => OutlineFilter.IEDirective s.1 s.2 d

/-- Delivery of a sequence of events, in order. -/
def OutlineFilter.run (env : Collaborators) (s : OutlineFilter × List Call)
    (events : List Event) : OutlineFilter × List Call :=
  events.foldl (OutlineFilter.handle env) s

/-! ## CacheUrlFetcher (util/public/cache_url_fetcher.h) -/

/-- MetaData: the headers of a request or of a response. -/
abbrev MetaData := List (String × String)

/-- Modelled from the spec: HTTPCache is not under src/; section 6 gives it the
key URL and the value headers plus body, newest entry first here. -/
abbrev HTTPCache := List (String × MetaData × String)

/-- Modelled from the spec: HTTPCache lookup(url), an entry or a miss (section 6). -/
def HTTPCache.lookup (cache : HTTPCache) (url : String) : Option (MetaData × String) :=
  (cache.find? (fun entry => entry.1 == url)).map (fun entry => entry.2)

/-- Modelled from the spec: HTTPCache store(url, headers, body) (section 6). -/
def HTTPCache.store (cache : HTTPCache) (url : String) (headers : MetaData)
    (body : String) : HTTPCache :=
  (url, headers, body) :: cache

/-- UrlFetcher, the synchronous transport `fetch(url, headers, sink) -> bool`:
the response headers and body on success. -/
abbrev UrlFetcher := String → MetaData → Option (MetaData × String)

/-- UrlAsyncFetcher, the asynchronous transport: what it delivers when done. -/
abbrev UrlAsyncFetcher := String → MetaData → Option (MetaData × String)

/-- CacheUrlFetcher (cache_url_fetcher.h:82-85). -/
structure CacheUrlFetcher where
  http_cache_ : HTTPCache
  sync_fetcher_ : Option UrlFetcher
  async_fetcher_ : Option UrlAsyncFetcher

/-- An invocation of an underlying transport. -/
inductive TransportCall where
  | sync (url : String)
  | async (url : String)
deriving DecidableEq, Repr

/-- What StreamingFetchUrl leaves behind: its return value, the response headers
and content handed to the caller, the transports invoked, and the cache. -/
structure FetchOutcome where
  returned : Bool
  response_headers : MetaData
  fetched_content : String
  transports : List TransportCall
  http_cache : HTTPCache

namespace CacheUrlFetcher

/-- CacheUrlFetcher::CacheUrlFetcher(HTTPCache*, UrlFetcher*)
(cache_url_fetcher.h:31-35). -/
def ofSync (cache : HTTPCache) (fetcher : UrlFetcher) : CacheUrlFetcher :=
  { http_cache_ := cache, sync_fetcher_ := some fetcher, async_fetcher_ := none }

/-- CacheUrlFetcher::CacheUrlFetcher(HTTPCache*, UrlAsyncFetcher*)
(cache_url_fetcher.h:36-40). -/
def ofAsync (cache : HTTPCache) (fetcher : UrlAsyncFetcher) : CacheUrlFetcher :=
  { http_cache_ := cache, sync_fetcher_ := none, async_fetcher_ := some fetcher }

/-- Modelled from the spec: CacheUrlFetcher::StreamingFetchUrl is only declared
under src/ (cache_url_fetcher.h:43-48), its body is missing.  Section 4.1: the
cache is checked first; on a hit the cached body is written at once and the call
returns; on a miss the configured transport is used: the blocking one, whose
successful result is stored in the cache, or, when only the asynchronous one is
present, that one is started and the call reports not yet available; a transport
failure leaves the cache unmodified. -/
def StreamingFetchUrl (f : CacheUrlFetcher) (url : String) (request_headers : MetaData) :
    FetchOutcome :=
  match f.http_cache_.lookup url with
  | some (headers, body) =>
    { returned := true, response_headers := headers, fetched_content := body,
      transports := [], http_cache := f.http_cache_ }
  | none =>
    match f.sync_fetcher_ with
    | some fetcher =>
      match fetcher url request_headers with
      | some (headers, body) =>
        { returned := true, response_headers := headers, fetched_content := body,
          transports := [TransportCall.sync url],
          http_cache := f.http_cache_.store url headers body }
      | none =>
        { returned := false, response_headers := [], fetched_content := "",
          transports := [TransportCall.sync url], http_cache := f.http_cache_ }
    | none =>
      match f.async_fetcher_ with
      | some _ =>
        { returned := false, response_headers := [], fetched_content := "",
          transports := [TransportCall.async url], http_cache := f.http_cache_ }
      | none =>
        { returned := false, response_headers := [], fetched_content := "",
          transports := [], http_cache := f.http_cache_ }

end CacheUrlFetcher

/-! ## Vocabulary of the claims -/

/-- The filter is Idle: no element is buffered and the buffer is empty. -/
def OutlineFilter.Idle (f : OutlineFilter) : Prop :=
  f.inline_element_ = none ∧ f.buffer_ = ""

/-- The element qualifies for outlining under the configuration of the filter:
a style element with outline_styles, or a script element without a src attribute
with outline_scripts. -/
def OutlineFilter.qualifies (f : OutlineFilter) (x : HtmlElement) : Bool :=
  (f.outline_styles_ && decide (x.tag = s_style_)) ||
  (f.outline_scripts_ && decide (x.tag = s_script_) &&
    !x.attributes.any (fun a => decide (a.name = s_src_)))

/-- The text carried by a Characters or IgnorableWhitespace event. -/
def Event.text : Event → String
  | Event.Characters characters => characters
  | Event.IgnorableWhitespace whitespace => whitespace
  | _ => ""

/-- The event is a Characters or an IgnorableWhitespace event. -/
def Event.isText : Event → Bool
  | Event.Characters _ => true
  | Event.IgnorableWhitespace _ => true
  | _ => false

/-- Concatenation, in event order, of the text carried by a sequence of events. -/
def textOf : List Event → String
  | [] => ""
  | ev :: rest => ev.text ++ textOf rest

/-- The event is a structural error for a filter buffering the element at
address `a`: an element start, a comment, a CDATA block, an IE directive, or an
element end for an element other than the buffered one. -/
def Event.structuralError (a : Nat) : Event → Bool
  | Event.StartElement _ => true
  | Event.Comment _ => true
  | Event.Cdata _ => true
  | Event.IEDirective _ => true
  | Event.EndElement x => decide (x.addr ≠ a)
  | _ => false

/-- The call requests an output resource from the ResourceManager. -/
def Call.createsResource : Call → Bool
  | Call.CreateOutputResource _ _ => true
  | Call.GenerateOutputResource _ _ => true
  | _ => false

/-- The call creates, inserts or deletes an element. -/
def Call.mutatesTree : Call → Bool
  | Call.NewElement _ _ => true
  | Call.DeleteElement _ _ => true
  | Call.InsertElementBeforeCurrent _ => true
  | _ => false

/-- The calls made up to the end of the write when the Outline operation writes
`content` for element `e` into a fresh output resource of type `ct`. -/
def OutlineFilter.writeCalls (env : Collaborators) (t : List Call) (e : HtmlElement)
    (ct : ContentType) (content : String) : List Call :=
  let r := env.CreateOutputResource (t ++ [Call.IsRewritable e]) ct
  [Call.IsRewritable e, Call.CreateOutputResource ct r, Call.StartWrite r,
   Call.WriteChunk r content, Call.EndWrite r]

/-- The answer of the write: the conjunction of the three write steps on the
output resource the Outline operation obtains. -/
def OutlineFilter.writeWorked (env : Collaborators) (t : List Call) (e : HtmlElement)
    (ct : ContentType) : Bool :=
  let r := env.CreateOutputResource (t ++ [Call.IsRewritable e]) ct
  r.StartWrite && r.WriteChunk && r.EndWrite

/-- The replacement element of a successful outline: a fresh element with tag
`tag` whose attributes are `leading` followed by those of the original. -/
def OutlineFilter.replacement (env : Collaborators) (t : List Call) (e : HtmlElement)
    (ct : ContentType) (content : String) (tag : Atom) (leading : List Attribute) :
    HtmlElement :=
  { addr := env.NewElement (t ++ OutlineFilter.writeCalls env t e ct content) tag,
    tag := tag, attributes := leading ++ e.attributes }

/-- The answer of DeleteElement during a successful outline. -/
def OutlineFilter.deleteWorked (env : Collaborators) (t : List Call) (e : HtmlElement)
    (ct : ContentType) (content : String) (tag : Atom) : Bool :=
  env.DeleteElement
    (t ++ OutlineFilter.writeCalls env t e ct content ++
      [Call.NewElement tag
        (env.NewElement (t ++ OutlineFilter.writeCalls env t e ct content) tag)]) e

/-- The call runs one of the image optimizers. -/
def Call.isOptimizer : Call → Bool
  | Call.OptimizeJpeg _ _ => true
  | Call.OptimizePng _ _ _ => true
  | _ => false

/-- The calls WriteBytesWithExtension adds to the trace. -/
def ImgRewriteFilter.writeCalls (env : Collaborators) (t : List Call)
    (content_type : ContentType) (contents : String) (src : Attribute) : List Call :=
  let r := env.GenerateOutputResource t content_type
  [Call.GenerateOutputResource content_type r, Call.StartWrite r] ++
    (if r.StartWrite then
      Call.WriteChunk r contents ::
        (if r.WriteChunk then
          Call.EndWrite r ::
            (if r.EndWrite then
              Call.IsReadable r ::
                (if r.IsReadable then
                  [Info src.value "Remapped to %s" [Arg.str r.url]]
                 else [])
             else [])
         else [])
     else [])

/-- The state invariant of the filter: when no element is buffered the buffer is
empty. -/
def OutlineFilter.bufferInvariant (f : OutlineFilter) : Prop :=
  f.inline_element_ = none → f.buffer_ = ""

/-! ## Concrete inputs used by the witnesses -/

/-- Collaborators whose HtmlParse reports no element as rewritable; everything
else would succeed. -/
def notRewritableEnv : Collaborators where
  IsRewritable := fun _ _ => false
  DeleteElement := fun _ _ => true
  NewElement := fun t _ => 1000 + t.length
  CreateOutputResource := fun _ _ => ⟨true, true, true, true, "http://out/1"⟩
  GenerateOutputResource := fun _ _ => ⟨true, true, true, true, "http://out/2"⟩

/-- Collaborators that always succeed: every element is rewritable, every output
resource accepts its writes and is readable, every deletion works. -/
def demoEnv : Collaborators where
  IsRewritable := fun _ _ => true
  DeleteElement := fun _ _ => true
  NewElement := fun t _ => 1000 + t.length
  CreateOutputResource := fun _ _ => ⟨true, true, true, true, "http://out/1"⟩
  GenerateOutputResource := fun _ _ => ⟨true, true, true, true, "http://out/2"⟩

/-- Collaborators whose output resources reject the chunk written to them. -/
def failingWriteEnv : Collaborators where
  IsRewritable := fun _ _ => true
  DeleteElement := fun _ _ => true
  NewElement := fun t _ => 1000 + t.length
  CreateOutputResource := fun _ _ => ⟨true, false, true, true, "http://out/1"⟩
  GenerateOutputResource := fun _ _ => ⟨true, false, true, true, "http://out/2"⟩

/-- Collaborators whose HtmlParse refuses to delete elements. -/
def failingDeleteEnv : Collaborators where
  IsRewritable := fun _ _ => true
  DeleteElement := fun _ _ => false
  NewElement := fun t _ => 1000 + t.length
  CreateOutputResource := fun _ _ => ⟨true, true, true, true, "http://out/1"⟩
  GenerateOutputResource := fun _ _ => ⟨true, true, true, true, "http://out/2"⟩

/-- The element of `<style type="text/plain">`. -/
def stylePlain : HtmlElement :=
  { addr := 1, tag := "style", attributes := [⟨"type", "text/plain", "\""⟩] }

/-- The element of `<style media="print">`. -/
def styleMedia : HtmlElement :=
  { addr := 2, tag := "style", attributes := [⟨"media", "print", "\""⟩] }

/-- The element of `<script>`. -/
def scriptInline : HtmlElement :=
  { addr := 3, tag := "script", attributes := [] }

/-- The element of `<script type="text/javascript" defer="defer">`. -/
def scriptTyped : HtmlElement :=
  { addr := 4, tag := "script",
    attributes := [⟨"type", "text/javascript", "\""⟩, ⟨"defer", "defer", "\""⟩] }

/-- The element of `<div>`. -/
def divElement : HtmlElement :=
  { addr := 5, tag := "div", attributes := [] }

/-- The element of `<img src="b.gif">`. -/
def imgGif : HtmlElement :=
  { addr := 6, tag := "img", attributes := [⟨"src", "b.gif", "\""⟩] }

/-- The element of `<img src="a.jpg">`. -/
def imgJpeg : HtmlElement :=
  { addr := 7, tag := "img", attributes := [⟨"src", "a.jpg", "\""⟩] }

/-- Collaborators of the image filter: an img element yields its first src
attribute; the url b.gif is read as a valid GIF, any other url as a valid
JPEG; the JPEG recompressor fails and the PNG optimizer succeeds. -/
def demoImg : ImgCollaborators where
  ParseImgElement := fun e =>
    if e.tag = "img" then e.FirstAttributeWithName "src" else none
  CreateInputResource := fun _ url =>
    if url = "b.gif" then some ⟨true, true, ImageType.IMAGE_GIF, "GIF89a", url⟩
    else some ⟨true, true, ImageType.IMAGE_JPEG, "JFIF", url⟩
  OptimizeJpeg := fun _ => none
  OptimizePng := fun _ contents => some contents
  filename := "index.html"

/-- Collaborators of the image filter whose ResourceManager yields no input
resource. -/
def noInputImg : ImgCollaborators where
  ParseImgElement := fun e =>
    if e.tag = "img" then e.FirstAttributeWithName "src" else none
  CreateInputResource := fun _ _ => none
  OptimizeJpeg := fun _ => none
  OptimizePng := fun _ contents => some contents
  filename := "index.html"

/-- Collaborators of the image filter whose JPEG recompressor succeeds. -/
def jpegImg : ImgCollaborators where
  ParseImgElement := fun e =>
    if e.tag = "img" then e.FirstAttributeWithName "src" else none
  CreateInputResource := fun _ url => some ⟨true, true, ImageType.IMAGE_JPEG, "JFIF", url⟩
  OptimizeJpeg := fun _ => some "jfif"
  OptimizePng := fun _ contents => some contents
  filename := "index.html"

/-- A cache holding one entry, for `http://a/x.css`. -/
def demoCache : HTTPCache :=
  [("http://a/x.css", [("Content-Type", "text/css")], "a:b")]

/-! ## Auxiliary lemmas -/

theorem FirstAttributeWithName_eq_none_iff (e : HtmlElement) (name : Atom) :
    e.FirstAttributeWithName name = none ↔ ∀ a ∈ e.attributes, a.name ≠ name := by
  simp [HtmlElement.FirstAttributeWithName, List.find?_eq_none]

theorem typeMatches_iff (e : HtmlElement) (expected : String) :
    OutlineFilter.typeMatches (e.FirstAttributeWithName s_type_) expected = true ↔
      ((∀ a ∈ e.attributes, a.name ≠ s_type_) ∨
        ∃ a, e.FirstAttributeWithName s_type_ = some a ∧ a.value = expected) := by
  rw [← FirstAttributeWithName_eq_none_iff]
  cases h : e.FirstAttributeWithName s_type_ with
  | none => simp [OutlineFilter.typeMatches]
  | some a => simp [OutlineFilter.typeMatches]

theorem WriteResource_fst (t : List Call) (content : String) (r : OutputResource) :
    (OutlineFilter.WriteResource t content r).1 =
      (r.StartWrite && r.WriteChunk && r.EndWrite) := rfl

theorem WriteResource_snd (t : List Call) (content : String) (r : OutputResource) :
    (OutlineFilter.WriteResource t content r).2 =
      t ++ [Call.StartWrite r, Call.WriteChunk r content, Call.EndWrite r] := by
  simp [OutlineFilter.WriteResource]

theorem copyAttributes_attributes (target : HtmlElement) (attributes : List Attribute) :
    (OutlineFilter.copyAttributes target attributes).attributes =
      target.attributes ++ attributes := by
  induction attributes generalizing target with
  | nil => simp [OutlineFilter.copyAttributes]
  | cons a rest ih =>
    have h := ih (target.AddAttribute a.name a.value a.quote)
    simp only [OutlineFilter.copyAttributes, List.foldl_cons] at h ⊢
    rw [h]
    simp [HtmlElement.AddAttribute]

theorem copyAttributes_tag (target : HtmlElement) (attributes : List Attribute) :
    (OutlineFilter.copyAttributes target attributes).tag = target.tag := by
  induction attributes generalizing target with
  | nil => simp [OutlineFilter.copyAttributes]
  | cons a rest ih =>
    have h := ih (target.AddAttribute a.name a.value a.quote)
    simp only [OutlineFilter.copyAttributes, List.foldl_cons] at h ⊢
    rw [h]
    simp [HtmlElement.AddAttribute]

theorem copyAttributes_addr (target : HtmlElement) (attributes : List Attribute) :
    (OutlineFilter.copyAttributes target attributes).addr = target.addr := by
  induction attributes generalizing target with
  | nil => simp [OutlineFilter.copyAttributes]
  | cons a rest ih =>
    have h := ih (target.AddAttribute a.name a.value a.quote)
    simp only [OutlineFilter.copyAttributes, List.foldl_cons] at h ⊢
    rw [h]
    simp [HtmlElement.AddAttribute]

theorem OutlineStyle_not_rewritable (env : Collaborators) (t : List Call)
    (e : HtmlElement) (content : String) (hrw : env.IsRewritable t e = false) :
    OutlineFilter.OutlineStyle env t e content = t ++ [Call.IsRewritable e] := by
  simp [OutlineFilter.OutlineStyle, hrw]

theorem OutlineStyle_mismatch (env : Collaborators) (t : List Call)
    (e : HtmlElement) (content : String) (hrw : env.IsRewritable t e = true)
    (hm : OutlineFilter.typeMatches (e.FirstAttributeWithName s_type_) kTextCss = false) :
    OutlineFilter.OutlineStyle env t e content =
      t ++ [Call.IsRewritable e,
            InfoHere "Cannot outline non-css stylesheet %s" [Arg.element e]] := by
  simp [OutlineFilter.OutlineStyle, hrw, hm]

theorem OutlineStyle_write_failed (env : Collaborators) (t : List Call)
    (e : HtmlElement) (content : String) (hrw : env.IsRewritable t e = true)
    (hm : OutlineFilter.typeMatches (e.FirstAttributeWithName s_type_) kTextCss = true)
    (hw : OutlineFilter.writeWorked env t e ContentType.kContentTypeCss = false) :
    OutlineFilter.OutlineStyle env t e content =
      t ++ OutlineFilter.writeCalls env t e ContentType.kContentTypeCss content ++
        [ErrorHere "Failed to write style resource." []] := by
  simp only [OutlineFilter.writeWorked] at hw
  simp [OutlineFilter.OutlineStyle, hrw, hm, WriteResource_fst, WriteResource_snd, hw,
    OutlineFilter.writeCalls]

theorem OutlineStyle_written (env : Collaborators) (t : List Call)
    (e : HtmlElement) (content : String) (hrw : env.IsRewritable t e = true)
    (hm : OutlineFilter.typeMatches (e.FirstAttributeWithName s_type_) kTextCss = true)
    (hw : OutlineFilter.writeWorked env t e ContentType.kContentTypeCss = true) :
    OutlineFilter.OutlineStyle env t e content =
      t ++ OutlineFilter.writeCalls env t e ContentType.kContentTypeCss content ++
        [Call.NewElement s_link_
           (OutlineFilter.replacement env t e ContentType.kContentTypeCss content s_link_ []).addr,
         Call.DeleteElement e
           (OutlineFilter.deleteWorked env t e ContentType.kContentTypeCss content s_link_)] ++
        (if OutlineFilter.deleteWorked env t e ContentType.kContentTypeCss content s_link_
          then [] else [FatalErrorHere "Failed to delete element" []]) ++
        [Call.InsertElementBeforeCurrent
          (OutlineFilter.replacement env t e ContentType.kContentTypeCss content s_link_
            [⟨s_rel_, kStylesheet, kSingleQuote⟩,
             ⟨s_href_,
              (env.CreateOutputResource (t ++ [Call.IsRewritable e])
                ContentType.kContentTypeCss).url, kSingleQuote⟩])] := by
  simp only [OutlineFilter.writeWorked] at hw
  have hattr : ∀ (a : Nat) (u : String),
      OutlineFilter.copyAttributes
        ((HtmlElement.mk a s_link_ []).AddAttribute s_rel_ kStylesheet kSingleQuote
          |>.AddAttribute s_href_ u kSingleQuote) e.attributes =
      { addr := a, tag := s_link_,
        attributes := [⟨s_rel_, kStylesheet, kSingleQuote⟩, ⟨s_href_, u, kSingleQuote⟩] ++
          e.attributes } := by
    intro a u
    have h1 := copyAttributes_attributes
      ((HtmlElement.mk a s_link_ []).AddAttribute s_rel_ kStylesheet kSingleQuote
          |>.AddAttribute s_href_ u kSingleQuote) e.attributes
    have h2 := copyAttributes_tag
      ((HtmlElement.mk a s_link_ []).AddAttribute s_rel_ kStylesheet kSingleQuote
          |>.AddAttribute s_href_ u kSingleQuote) e.attributes
    have h3 := copyAttributes_addr
      ((HtmlElement.mk a s_link_ []).AddAttribute s_rel_ kStylesheet kSingleQuote
          |>.AddAttribute s_href_ u kSingleQuote) e.attributes
    cases hc : OutlineFilter.copyAttributes
      ((HtmlElement.mk a s_link_ []).AddAttribute s_rel_ kStylesheet kSingleQuote
          |>.AddAttribute s_href_ u kSingleQuote) e.attributes
    rw [hc] at h1 h2 h3
    simp [HtmlElement.AddAttribute] at h1 h2 h3
    simp [h1, h2, h3]
  simp only [OutlineFilter.OutlineStyle, hrw, hm, WriteResource_fst, WriteResource_snd, hw,
    if_true, hattr, OutlineFilter.writeCalls, OutlineFilter.replacement,
    OutlineFilter.deleteWorked]
  simp only [List.append_assoc, List.cons_append, List.nil_append]
  generalize env.DeleteElement _ e = d
  cases d <;> simp

theorem OutlineScript_not_rewritable (env : Collaborators) (t : List Call)
    (e : HtmlElement) (content : String) (hrw : env.IsRewritable t e = false) :
    OutlineFilter.OutlineScript env t e content = t ++ [Call.IsRewritable e] := by
  simp [OutlineFilter.OutlineScript, hrw]

theorem OutlineScript_mismatch (env : Collaborators) (t : List Call)
    (e : HtmlElement) (content : String) (hrw : env.IsRewritable t e = true)
    (hm : OutlineFilter.typeMatches (e.FirstAttributeWithName s_type_) kTextJavascript
      = false) :
    OutlineFilter.OutlineScript env t e content =
      t ++ [Call.IsRewritable e,
            InfoHere "Cannot outline non-javascript script %s" [Arg.element e]] := by
  simp [OutlineFilter.OutlineScript, hrw, hm]

theorem OutlineScript_write_failed (env : Collaborators) (t : List Call)
    (e : HtmlElement) (content : String) (hrw : env.IsRewritable t e = true)
    (hm : OutlineFilter.typeMatches (e.FirstAttributeWithName s_type_) kTextJavascript
      = true)
    (hw : OutlineFilter.writeWorked env t e ContentType.kContentTypeJavascript = false) :
    OutlineFilter.OutlineScript env t e content =
      t ++ OutlineFilter.writeCalls env t e ContentType.kContentTypeJavascript content ++
        [ErrorHere "Failed to write script resource." []] := by
  simp only [OutlineFilter.writeWorked] at hw
  simp [OutlineFilter.OutlineScript, hrw, hm, WriteResource_fst, WriteResource_snd, hw,
    OutlineFilter.writeCalls]

theorem OutlineScript_written (env : Collaborators) (t : List Call)
    (e : HtmlElement) (content : String) (hrw : env.IsRewritable t e = true)
    (hm : OutlineFilter.typeMatches (e.FirstAttributeWithName s_type_) kTextJavascript
      = true)
    (hw : OutlineFilter.writeWorked env t e ContentType.kContentTypeJavascript = true) :
    OutlineFilter.OutlineScript env t e content =
      t ++ OutlineFilter.writeCalls env t e ContentType.kContentTypeJavascript content ++
        [Call.NewElement s_script_
           (OutlineFilter.replacement env t e ContentType.kContentTypeJavascript content
              s_script_ []).addr,
         Call.DeleteElement e
           (OutlineFilter.deleteWorked env t e ContentType.kContentTypeJavascript content
              s_script_)] ++
        (if OutlineFilter.deleteWorked env t e ContentType.kContentTypeJavascript content
              s_script_
          then [] else [FatalErrorHere "Failed to delete element" []]) ++
        [Call.InsertElementBeforeCurrent
          (OutlineFilter.replacement env t e ContentType.kContentTypeJavascript content
            s_script_
            [⟨s_src_,
              (env.CreateOutputResource (t ++ [Call.IsRewritable e])
                ContentType.kContentTypeJavascript).url, kSingleQuote⟩])] := by
  simp only [OutlineFilter.writeWorked] at hw
  have hattr : ∀ (a : Nat) (u : String),
      OutlineFilter.copyAttributes
        ((HtmlElement.mk a s_script_ []).AddAttribute s_src_ u kSingleQuote) e.attributes =
      { addr := a, tag := s_script_,
        attributes := [⟨s_src_, u, kSingleQuote⟩] ++ e.attributes } := by
    intro a u
    have h1 := copyAttributes_attributes
      ((HtmlElement.mk a s_script_ []).AddAttribute s_src_ u kSingleQuote) e.attributes
    have h2 := copyAttributes_tag
      ((HtmlElement.mk a s_script_ []).AddAttribute s_src_ u kSingleQuote) e.attributes
    have h3 := copyAttributes_addr
      ((HtmlElement.mk a s_script_ []).AddAttribute s_src_ u kSingleQuote) e.attributes
    cases hc : OutlineFilter.copyAttributes
      ((HtmlElement.mk a s_script_ []).AddAttribute s_src_ u kSingleQuote) e.attributes
    rw [hc] at h1 h2 h3
    simp [HtmlElement.AddAttribute] at h1 h2 h3
    simp [h1, h2, h3]
  simp only [OutlineFilter.OutlineScript, hrw, hm, WriteResource_fst, WriteResource_snd, hw,
    if_true, hattr, OutlineFilter.writeCalls, OutlineFilter.replacement,
    OutlineFilter.deleteWorked]
  simp only [List.append_assoc, List.cons_append, List.nil_append]
  generalize env.DeleteElement _ e = d
  cases d <;> simp

theorem srcLoop_eq (attributes : List Attribute) (cur : Option Nat) :
    OutlineFilter.srcLoop attributes cur =
      if attributes.any (fun a => decide (a.name = s_src_)) then none else cur := by
  induction attributes generalizing cur with
  | nil => simp [OutlineFilter.srcLoop]
  | cons a rest ih =>
    have h := ih (if a.name = s_src_ then none else cur)
    simp only [OutlineFilter.srcLoop, List.foldl_cons] at h ⊢
    rw [h]
    by_cases ha : a.name = s_src_ <;> simp [ha]

theorem run_nil (env : Collaborators) (s : OutlineFilter × List Call) :
    OutlineFilter.run env s [] = s := rfl

theorem run_cons (env : Collaborators) (s : OutlineFilter × List Call) (ev : Event)
    (rest : List Event) :
    OutlineFilter.run env s (ev :: rest) =
      OutlineFilter.run env (OutlineFilter.handle env s ev) rest := rfl

theorem run_append (env : Collaborators) (s : OutlineFilter × List Call)
    (l₁ l₂ : List Event) :
    OutlineFilter.run env s (l₁ ++ l₂) =
      OutlineFilter.run env (OutlineFilter.run env s l₁) l₂ := by
  simp [OutlineFilter.run, List.foldl_append]

/-- Text events delivered while an element is buffered only extend the buffer. -/
theorem run_texts_buffering (env : Collaborators) (texts : List Event)
    (htexts : ∀ ev ∈ texts, ev.isText = true)
    (a : Nat) (b : String) (os osc : Bool) (t : List Call) :
    OutlineFilter.run env (⟨some a, b, os, osc⟩, t) texts =
      (⟨some a, b ++ textOf texts, os, osc⟩, t) := by
  induction texts generalizing b with
  | nil => simp [run_nil, textOf]
  | cons ev rest ih =>
    have hrest : ∀ ev ∈ rest, ev.isText = true := fun x hx =>
      htexts x (List.mem_cons_of_mem _ hx)
    have hev := htexts ev (List.mem_cons_self _ _)
    rw [run_cons]
    cases ev <;> simp [Event.isText] at hev
    · simp only [OutlineFilter.handle, OutlineFilter.Characters]
      simp only [ne_eq, reduceCtorEq, not_false_eq_true, if_true]
      rw [ih hrest]
      simp [textOf, Event.text, String.append_assoc]
    · simp only [OutlineFilter.handle, OutlineFilter.IgnorableWhitespace]
      simp only [ne_eq, reduceCtorEq, not_false_eq_true, if_true]
      rw [ih hrest]
      simp [textOf, Event.text, String.append_assoc]

/-- StartElement on a filter that buffers nothing: the element is buffered
exactly when it qualifies; nothing is logged. -/
theorem StartElement_of_not_buffering (f : OutlineFilter) (t : List Call)
    (x : HtmlElement) (hnone : f.inline_element_ = none) :
    OutlineFilter.StartElement f t x =
      (if f.qualifies x then { f with inline_element_ := some x.addr, buffer_ := "" }
       else if (f.outline_styles_ && decide (x.tag = s_style_)) ||
            (f.outline_scripts_ && decide (x.tag = s_script_))
         then { f with inline_element_ := none, buffer_ := "" }
         else f, t) := by
  obtain ⟨ie, b, os, osc⟩ := f
  simp only at hnone
  subst hnone
  simp only [OutlineFilter.StartElement, OutlineFilter.qualifies, srcLoop_eq]
  have hss : s_style_ ≠ s_script_ := by decide
  have hss2 : s_script_ ≠ s_style_ := by decide
  by_cases h1 : x.tag = s_style_
  · cases os <;> cases osc <;> simp [h1, hss]
  · by_cases h2 : x.tag = s_script_
    · cases os <;> cases osc <;>
        cases h3 : x.attributes.any (fun a => decide (a.name = s_src_)) <;>
        simp [h2, h3, hss2]
    · cases os <;> cases osc <;> simp [h1, h2]

/-- StartElement on a buffering filter reports the nested tag, drops the buffered
element and then proceeds as on a filter that buffers nothing. -/
theorem StartElement_of_buffering (f : OutlineFilter) (t : List Call)
    (x : HtmlElement) (a : Nat) (hbuf : f.inline_element_ = some a) :
    OutlineFilter.StartElement f t x =
      OutlineFilter.StartElement { f with inline_element_ := none, buffer_ := "" }
        (t ++ [ErrorHere "Tag \x27%s\x27 found inside style/script." [Arg.str x.tag]]) x := by
  obtain ⟨ie, b, os, osc⟩ := f
  simp only at hbuf
  subst hbuf
  simp [OutlineFilter.StartElement]

/-- An Idle filter stays as it is, and calls no collaborator, as long as no
qualifying element starts. -/
theorem run_idle_of_no_qualifying_start (env : Collaborators) (f : OutlineFilter)
    (t : List Call) (events : List Event) (hidle : f.Idle)
    (hnq : ∀ x, Event.StartElement x ∈ events → f.qualifies x = false) :
    OutlineFilter.run env (f, t) events = (f, t) := by
  induction events with
  | nil => rfl
  | cons ev rest ih =>
    have hrest : ∀ x, Event.StartElement x ∈ rest → f.qualifies x = false :=
      fun x hx => hnq x (List.mem_cons_of_mem _ hx)
    obtain ⟨ie, b, os, osc⟩ := f
    obtain ⟨h1, h2⟩ := hidle
    simp only at h1 h2
    subst h1 h2
    rw [run_cons]
    have hstep : OutlineFilter.handle env (⟨none, "", os, osc⟩, t) ev =
        (⟨none, "", os, osc⟩, t) := by
      cases ev with
      | StartElement x =>
        have hx := hnq x (List.mem_cons_self _ _)
        simp only [OutlineFilter.handle]
        rw [StartElement_of_not_buffering _ _ _ rfl, hx]
        simp
      | _ =>
        simp [OutlineFilter.handle, OutlineFilter.StartDocument, OutlineFilter.EndElement,
          OutlineFilter.Flush, OutlineFilter.Characters, OutlineFilter.IgnorableWhitespace,
          OutlineFilter.Comment, OutlineFilter.Cdata, OutlineFilter.IEDirective]
    rw [hstep]
    exact ih hrest

/-- The element buffered after a handler is either none, the one buffered before,
or the element just started. -/
theorem handle_inline_element (env : Collaborators) (s : OutlineFilter × List Call)
    (ev : Event) :
    (OutlineFilter.handle env s ev).1.inline_element_ = none ∨
    (OutlineFilter.handle env s ev).1.inline_element_ = s.1.inline_element_ ∨
    ∃ x, ev = Event.StartElement x ∧
      (OutlineFilter.handle env s ev).1.inline_element_ = some x.addr := by
  obtain ⟨⟨ie, b, os, osc⟩, t⟩ := s
  cases ev with
  | StartElement x =>
    simp only [OutlineFilter.handle]
    cases ie with
    | none =>
      rw [StartElement_of_not_buffering _ _ _ rfl]
      cases hq : OutlineFilter.qualifies ⟨none, b, os, osc⟩ x
      · left
        simp only [Bool.false_eq_true, if_false]
        split <;> rfl
      · right; right
        exact ⟨x, rfl, by simp⟩
    | some a =>
      rw [StartElement_of_buffering _ _ _ a rfl, StartElement_of_not_buffering _ _ _ rfl]
      cases hq : OutlineFilter.qualifies ⟨none, "", os, osc⟩ x
      · left
        simp only [Bool.false_eq_true, if_false]
        split <;> rfl
      · right; right
        exact ⟨x, rfl, by simp⟩
  | EndElement x =>
    cases ie with
    | none => right; left; rfl
    | some a => left; rfl
  | StartDocument => left; rfl
  | Flush => left; rfl
  | Characters c =>
    right; left
    simp only [OutlineFilter.handle, OutlineFilter.Characters]
    split <;> rfl
  | IgnorableWhitespace c =>
    right; left
    simp only [OutlineFilter.handle, OutlineFilter.IgnorableWhitespace]
    split <;> rfl
  | Comment c =>
    simp only [OutlineFilter.handle, OutlineFilter.Comment]
    split
    · left; rfl
    · right; left; rfl
  | Cdata c =>
    simp only [OutlineFilter.handle, OutlineFilter.Cdata]
    split
    · left; rfl
    · right; left; rfl
  | IEDirective c =>
    simp only [OutlineFilter.handle, OutlineFilter.IEDirective]
    split
    · left; rfl
    · right; left; rfl

/-- An element that is not buffered, and that is not started again, is not
buffered after any sequence of events. -/
theorem run_not_buffering_addr (env : Collaborators) (a : Nat) (events : List Event)
    (s : OutlineFilter × List Call) (hs : s.1.inline_element_ ≠ some a)
    (hev : ∀ x, Event.StartElement x ∈ events → x.addr ≠ a) :
    (OutlineFilter.run env s events).1.inline_element_ ≠ some a := by
  induction events generalizing s with
  | nil => exact hs
  | cons ev rest ih =>
    rw [run_cons]
    apply ih
    · rcases handle_inline_element env s ev with h | h | ⟨x, hx, h⟩
      · rw [h]; simp
      · rw [h]; exact hs
      · rw [h]
        have := hev x (by rw [hx]; exact List.mem_cons_self _ _)
        simpa using this
    · exact fun x hx => hev x (List.mem_cons_of_mem _ hx)

/-- An element that is neither a style element nor a script element without src
qualifies under no configuration. -/
theorem qualifies_false_of_tag (f : OutlineFilter) (x : HtmlElement)
    (hstyle : x.tag ≠ "style")
    (hscript : x.tag = "script" → ∃ a ∈ x.attributes, a.name = "src") :
    f.qualifies x = false := by
  simp only [OutlineFilter.qualifies, s_style_, s_script_, s_src_, Intern]
  by_cases hs : x.tag = "script"
  · obtain ⟨a, ha, hn⟩ := hscript hs
    have hany : x.attributes.any (fun a => decide (a.name = "src")) = true := by
      simp only [List.any_eq_true, decide_eq_true_eq]
      exact ⟨a, ha, hn⟩
    simp [hstyle, hany]
  · simp [hstyle, hs]

theorem WriteBytesWithExtension_snd (env : Collaborators) (t : List Call)
    (content_type : ContentType) (contents : String) (src : Attribute) :
    (ImgRewriteFilter.WriteBytesWithExtension env t content_type contents src).2 =
      t ++ ImgRewriteFilter.writeCalls env t content_type contents src := by
  simp only [ImgRewriteFilter.WriteBytesWithExtension, ImgRewriteFilter.writeCalls]
  cases (env.GenerateOutputResource t content_type).StartWrite <;>
  cases (env.GenerateOutputResource t content_type).WriteChunk <;>
  cases (env.GenerateOutputResource t content_type).EndWrite <;>
  cases (env.GenerateOutputResource t content_type).IsReadable <;>
  simp

theorem WriteBytesWithExtension_fst (env : Collaborators) (t : List Call)
    (content_type : ContentType) (contents : String) (src : Attribute) :
    (ImgRewriteFilter.WriteBytesWithExtension env t content_type contents src).1 =
      if ((env.GenerateOutputResource t content_type).StartWrite &&
          (env.GenerateOutputResource t content_type).WriteChunk &&
          (env.GenerateOutputResource t content_type).EndWrite &&
          (env.GenerateOutputResource t content_type).IsReadable) = true
      then { src with value := (env.GenerateOutputResource t content_type).url }
      else src := by
  simp only [ImgRewriteFilter.WriteBytesWithExtension]
  cases (env.GenerateOutputResource t content_type).StartWrite <;>
  cases (env.GenerateOutputResource t content_type).WriteChunk <;>
  cases (env.GenerateOutputResource t content_type).EndWrite <;>
  cases (env.GenerateOutputResource t content_type).IsReadable <;>
  simp

/-- Every call added by WriteBytesWithExtension is one of six. -/
theorem mem_writeCalls (env : Collaborators) (t : List Call)
    (content_type : ContentType) (contents : String) (src : Attribute) (c : Call)
    (hc : c ∈ ImgRewriteFilter.writeCalls env t content_type contents src) :
    c = Call.GenerateOutputResource content_type
          (env.GenerateOutputResource t content_type) ∨
    c = Call.StartWrite (env.GenerateOutputResource t content_type) ∨
    c = Call.WriteChunk (env.GenerateOutputResource t content_type) contents ∨
    c = Call.EndWrite (env.GenerateOutputResource t content_type) ∨
    c = Call.IsReadable (env.GenerateOutputResource t content_type) ∨
    c = Call.Message MessageType.kInfo "Remapped to %s"
          [Arg.str src.value, Arg.str (env.GenerateOutputResource t content_type).url] := by
  simp only [ImgRewriteFilter.writeCalls] at hc
  revert hc
  cases (env.GenerateOutputResource t content_type).StartWrite <;>
  cases (env.GenerateOutputResource t content_type).WriteChunk <;>
  cases (env.GenerateOutputResource t content_type).EndWrite <;>
  cases (env.GenerateOutputResource t content_type).IsReadable <;>
  simp [Info] <;> tauto

/-- Every handler preserves the state invariant. -/
theorem handle_bufferInvariant (env : Collaborators) (s : OutlineFilter × List Call)
    (ev : Event) (hinv : s.1.bufferInvariant) :
    (OutlineFilter.handle env s ev).1.bufferInvariant := by
  obtain ⟨⟨ie, b, os, osc⟩, t⟩ := s
  cases ie with
  | none =>
    have hb : b = "" := hinv rfl
    subst hb
    cases ev with
    | StartElement x =>
      simp only [OutlineFilter.handle]
      rw [StartElement_of_not_buffering _ _ _ rfl]
      intro _
      simp only
      split
      · rfl
      · split <;> rfl
    | _ =>
      intro _
      simp [OutlineFilter.handle, OutlineFilter.StartDocument, OutlineFilter.EndElement,
        OutlineFilter.Flush, OutlineFilter.Characters, OutlineFilter.IgnorableWhitespace,
        OutlineFilter.Comment, OutlineFilter.Cdata, OutlineFilter.IEDirective]
  | some a =>
    cases ev with
    | StartElement x =>
      simp only [OutlineFilter.handle]
      rw [StartElement_of_buffering _ _ _ a rfl, StartElement_of_not_buffering _ _ _ rfl]
      intro _
      simp only
      split
      · rfl
      · split <;> rfl
    | Characters x =>
      intro h
      simp [OutlineFilter.handle, OutlineFilter.Characters] at h
    | IgnorableWhitespace x =>
      intro h
      simp [OutlineFilter.handle, OutlineFilter.IgnorableWhitespace] at h
    | _ =>
      intro _
      simp [OutlineFilter.handle, OutlineFilter.StartDocument, OutlineFilter.EndElement,
        OutlineFilter.Flush, OutlineFilter.Comment, OutlineFilter.Cdata,
        OutlineFilter.IEDirective]

/-- The state invariant holds after any sequence of events when it holds
before. -/
theorem run_bufferInvariant (env : Collaborators) (events : List Event)
    (s : OutlineFilter × List Call) (hinv : s.1.bufferInvariant) :
    (OutlineFilter.run env s events).1.bufferInvariant := by
  induction events generalizing s with
  | nil => exact hinv
  | cons ev rest ih =>
    rw [run_cons]
    exact ih _ (handle_bufferInvariant env s ev hinv)

/-- The conjunction computed by OutlineFilter::WriteResource and the
short-circuited `written` of WriteBytesWithExtension agree. -/
theorem written_eq (r : OutputResource) :
    ImgRewriteFilter.written r = (r.StartWrite && r.WriteChunk && r.EndWrite) := by
  simp only [ImgRewriteFilter.written]
  cases r.StartWrite <;> cases r.WriteChunk <;> cases r.EndWrite <;> rfl

/-- Shape of the calls OutlineStyle adds: the rewritability query on the element
first and only once; any deletion is of that element; and, for a rewritable
element of matching type, the creation of one CSS output resource and the write
of the content as one chunk, with no further creation or chunk after it. -/
theorem OutlineStyle_added (env : Collaborators) (t : List Call) (e : HtmlElement)
    (content : String) :
    ∃ tail, OutlineFilter.OutlineStyle env t e content = t ++ Call.IsRewritable e :: tail ∧
      (∀ c ∈ tail, (∀ x, c ≠ Call.IsRewritable x) ∧
        ∀ x b, c = Call.DeleteElement x b → x = e) ∧
      (env.IsRewritable t e = true →
        OutlineFilter.typeMatches (e.FirstAttributeWithName s_type_) kTextCss = true →
        ∃ rest,
          tail =
            [Call.CreateOutputResource ContentType.kContentTypeCss
               (env.CreateOutputResource (t ++ [Call.IsRewritable e])
                 ContentType.kContentTypeCss),
             Call.StartWrite (env.CreateOutputResource (t ++ [Call.IsRewritable e])
                 ContentType.kContentTypeCss),
             Call.WriteChunk (env.CreateOutputResource (t ++ [Call.IsRewritable e])
                 ContentType.kContentTypeCss) content,
             Call.EndWrite (env.CreateOutputResource (t ++ [Call.IsRewritable e])
                 ContentType.kContentTypeCss)] ++ rest ∧
          ∀ c ∈ rest, (∀ o x, c ≠ Call.WriteChunk o x) ∧
            ∀ ct o, c ≠ Call.CreateOutputResource ct o) := by
  cases hrw : env.IsRewritable t e
  · refine ⟨[], ?_, ?_, ?_⟩
    · rw [OutlineStyle_not_rewritable env t e _ hrw]
    · intro c hc
      simp at hc
    · intro h
      exact absurd h (by simp)
  · cases hm : OutlineFilter.typeMatches (e.FirstAttributeWithName s_type_) kTextCss
    · refine ⟨[InfoHere "Cannot outline non-css stylesheet %s" [Arg.element e]], ?_, ?_, ?_⟩
      · rw [OutlineStyle_mismatch env t e _ hrw hm]
      · intro c hc
        simp only [List.mem_singleton] at hc
        subst hc
        simp [InfoHere]
      · intro _ h
        exact absurd h (by simp)
    · cases hw : OutlineFilter.writeWorked env t e ContentType.kContentTypeCss
      · refine ⟨[Call.CreateOutputResource ContentType.kContentTypeCss
               (env.CreateOutputResource (t ++ [Call.IsRewritable e])
                 ContentType.kContentTypeCss),
             Call.StartWrite (env.CreateOutputResource (t ++ [Call.IsRewritable e])
                 ContentType.kContentTypeCss),
             Call.WriteChunk (env.CreateOutputResource (t ++ [Call.IsRewritable e])
                 ContentType.kContentTypeCss) content,
             Call.EndWrite (env.CreateOutputResource (t ++ [Call.IsRewritable e])
                 ContentType.kContentTypeCss)] ++
            [ErrorHere "Failed to write style resource." []], ?_, ?_, ?_⟩
        · rw [OutlineStyle_write_failed env t e _ hrw hm hw]
          simp only [OutlineFilter.writeCalls, List.append_assoc, List.cons_append,
            List.nil_append]
        · intro c hc
          simp only [List.cons_append, List.nil_append, List.mem_cons, List.mem_singleton,
            List.not_mem_nil, or_false] at hc
          rcases hc with hc | hc | hc | hc | hc <;> (subst hc; simp [ErrorHere])
        · intro _ _
          refine ⟨[ErrorHere "Failed to write style resource." []], rfl, ?_⟩
          intro c hc
          simp only [List.mem_singleton] at hc
          subst hc
          simp [ErrorHere]
      · cases hd : OutlineFilter.deleteWorked env t e ContentType.kContentTypeCss
          content s_link_
        · refine ⟨[Call.CreateOutputResource ContentType.kContentTypeCss
               (env.CreateOutputResource (t ++ [Call.IsRewritable e])
                 ContentType.kContentTypeCss),
             Call.StartWrite (env.CreateOutputResource (t ++ [Call.IsRewritable e])
                 ContentType.kContentTypeCss),
             Call.WriteChunk (env.CreateOutputResource (t ++ [Call.IsRewritable e])
                 ContentType.kContentTypeCss) content,
             Call.EndWrite (env.CreateOutputResource (t ++ [Call.IsRewritable e])
                 ContentType.kContentTypeCss)] ++
              [Call.NewElement s_link_ (OutlineFilter.replacement env t e ContentType.kContentTypeCss content s_link_ []).addr,
               Call.DeleteElement e false,
               FatalErrorHere "Failed to delete element" [],
               Call.InsertElementBeforeCurrent
                 (OutlineFilter.replacement env t e ContentType.kContentTypeCss content s_link_
              [⟨s_rel_, kStylesheet, kSingleQuote⟩,
               ⟨s_href_, (env.CreateOutputResource (t ++ [Call.IsRewritable e])
                  ContentType.kContentTypeCss).url, kSingleQuote⟩])], ?_, ?_, ?_⟩
          · rw [OutlineStyle_written env t e _ hrw hm hw, hd]
            simp only [OutlineFilter.writeCalls, List.append_assoc, List.cons_append,
              List.nil_append, Bool.false_eq_true, if_false]
          · intro c hc
            simp only [List.cons_append, List.nil_append, List.mem_cons,
              List.mem_singleton, List.not_mem_nil, or_false] at hc
            rcases hc with hc | hc | hc | hc | hc | hc | hc | hc <;>
              (subst hc; simp [FatalErrorHere])
          · intro _ _
            refine ⟨_, rfl, ?_⟩
            intro c hc
            simp only [List.mem_cons, List.mem_singleton, List.not_mem_nil, or_false] at hc
            rcases hc with hc | hc | hc | hc <;> (subst hc; simp [FatalErrorHere])
        · refine ⟨[Call.CreateOutputResource ContentType.kContentTypeCss
               (env.CreateOutputResource (t ++ [Call.IsRewritable e])
                 ContentType.kContentTypeCss),
             Call.StartWrite (env.CreateOutputResource (t ++ [Call.IsRewritable e])
                 ContentType.kContentTypeCss),
             Call.WriteChunk (env.CreateOutputResource (t ++ [Call.IsRewritable e])
                 ContentType.kContentTypeCss) content,
             Call.EndWrite (env.CreateOutputResource (t ++ [Call.IsRewritable e])
                 ContentType.kContentTypeCss)] ++
              [Call.NewElement s_link_ (OutlineFilter.replacement env t e ContentType.kContentTypeCss content s_link_ []).addr,
               Call.DeleteElement e true,
               Call.InsertElementBeforeCurrent
                 (OutlineFilter.replacement env t e ContentType.kContentTypeCss content s_link_
              [⟨s_rel_, kStylesheet, kSingleQuote⟩,
               ⟨s_href_, (env.CreateOutputResource (t ++ [Call.IsRewritable e])
                  ContentType.kContentTypeCss).url, kSingleQuote⟩])], ?_, ?_, ?_⟩
          · rw [OutlineStyle_written env t e _ hrw hm hw, hd]
            simp only [OutlineFilter.writeCalls, List.append_assoc, List.cons_append,
              List.nil_append, if_true]
          · intro c hc
            simp only [List.cons_append, List.nil_append, List.mem_cons,
              List.mem_singleton, List.not_mem_nil, or_false] at hc
            rcases hc with hc | hc | hc | hc | hc | hc | hc <;> (subst hc; simp)
          · intro _ _
            refine ⟨_, rfl, ?_⟩
            intro c hc
            simp only [List.mem_cons, List.mem_singleton, List.not_mem_nil, or_false] at hc
            rcases hc with hc | hc | hc <;> (subst hc; simp)

/-- Shape of the calls OutlineScript adds, as for OutlineStyle, with a JavaScript
output resource. -/
theorem OutlineScript_added (env : Collaborators) (t : List Call) (e : HtmlElement)
    (content : String) :
    ∃ tail, OutlineFilter.OutlineScript env t e content = t ++ Call.IsRewritable e :: tail ∧
      (∀ c ∈ tail, (∀ x, c ≠ Call.IsRewritable x) ∧
        ∀ x b, c = Call.DeleteElement x b → x = e) ∧
      (env.IsRewritable t e = true →
        OutlineFilter.typeMatches (e.FirstAttributeWithName s_type_) kTextJavascript = true →
        ∃ rest,
          tail =
            [Call.CreateOutputResource ContentType.kContentTypeJavascript
               (env.CreateOutputResource (t ++ [Call.IsRewritable e])
                 ContentType.kContentTypeJavascript),
             Call.StartWrite (env.CreateOutputResource (t ++ [Call.IsRewritable e])
                 ContentType.kContentTypeJavascript),
             Call.WriteChunk (env.CreateOutputResource (t ++ [Call.IsRewritable e])
                 ContentType.kContentTypeJavascript) content,
             Call.EndWrite (env.CreateOutputResource (t ++ [Call.IsRewritable e])
                 ContentType.kContentTypeJavascript)] ++ rest ∧
          ∀ c ∈ rest, (∀ o x, c ≠ Call.WriteChunk o x) ∧
            ∀ ct o, c ≠ Call.CreateOutputResource ct o) := by
  cases hrw : env.IsRewritable t e
  · refine ⟨[], ?_, ?_, ?_⟩
    · rw [OutlineScript_not_rewritable env t e _ hrw]
    · intro c hc
      simp at hc
    · intro h
      exact absurd h (by simp)
  · cases hm : OutlineFilter.typeMatches (e.FirstAttributeWithName s_type_) kTextJavascript
    · refine ⟨[InfoHere "Cannot outline non-javascript script %s" [Arg.element e]], ?_, ?_, ?_⟩
      · rw [OutlineScript_mismatch env t e _ hrw hm]
      · intro c hc
        simp only [List.mem_singleton] at hc
        subst hc
        simp [InfoHere]
      · intro _ h
        exact absurd h (by simp)
    · cases hw : OutlineFilter.writeWorked env t e ContentType.kContentTypeJavascript
      · refine ⟨[Call.CreateOutputResource ContentType.kContentTypeJavascript
               (env.CreateOutputResource (t ++ [Call.IsRewritable e])
                 ContentType.kContentTypeJavascript),
             Call.StartWrite (env.CreateOutputResource (t ++ [Call.IsRewritable e])
                 ContentType.kContentTypeJavascript),
             Call.WriteChunk (env.CreateOutputResource (t ++ [Call.IsRewritable e])
                 ContentType.kContentTypeJavascript) content,
             Call.EndWrite (env.CreateOutputResource (t ++ [Call.IsRewritable e])
                 ContentType.kContentTypeJavascript)] ++
            [ErrorHere "Failed to write script resource." []], ?_, ?_, ?_⟩
        · rw [OutlineScript_write_failed env t e _ hrw hm hw]
          simp only [OutlineFilter.writeCalls, List.append_assoc, List.cons_append,
            List.nil_append]
        · intro c hc
          simp only [List.cons_append, List.nil_append, List.mem_cons, List.mem_singleton,
            List.not_mem_nil, or_false] at hc
          rcases hc with hc | hc | hc | hc | hc <;> (subst hc; simp [ErrorHere])
        · intro _ _
          refine ⟨[ErrorHere "Failed to write script resource." []], rfl, ?_⟩
          intro c hc
          simp only [List.mem_singleton] at hc
          subst hc
          simp [ErrorHere]
      · cases hd : OutlineFilter.deleteWorked env t e ContentType.kContentTypeJavascript
          content s_script_
        · refine ⟨[Call.CreateOutputResource ContentType.kContentTypeJavascript
               (env.CreateOutputResource (t ++ [Call.IsRewritable e])
                 ContentType.kContentTypeJavascript),
             Call.StartWrite (env.CreateOutputResource (t ++ [Call.IsRewritable e])
                 ContentType.kContentTypeJavascript),
             Call.WriteChunk (env.CreateOutputResource (t ++ [Call.IsRewritable e])
                 ContentType.kContentTypeJavascript) content,
             Call.EndWrite (env.CreateOutputResource (t ++ [Call.IsRewritable e])
                 ContentType.kContentTypeJavascript)] ++
              [Call.NewElement s_script_ (OutlineFilter.replacement env t e ContentType.kContentTypeJavascript content s_script_ []).addr,
               Call.DeleteElement e false,
               FatalErrorHere "Failed to delete element" [],
               Call.InsertElementBeforeCurrent
                 (OutlineFilter.replacement env t e ContentType.kContentTypeJavascript content s_script_
              [⟨s_src_, (env.CreateOutputResource (t ++ [Call.IsRewritable e])
                  ContentType.kContentTypeJavascript).url, kSingleQuote⟩])], ?_, ?_, ?_⟩
          · rw [OutlineScript_written env t e _ hrw hm hw, hd]
            simp only [OutlineFilter.writeCalls, List.append_assoc, List.cons_append,
              List.nil_append, Bool.false_eq_true, if_false]
          · intro c hc
            simp only [List.cons_append, List.nil_append, List.mem_cons,
              List.mem_singleton, List.not_mem_nil, or_false] at hc
            rcases hc with hc | hc | hc | hc | hc | hc | hc | hc <;>
              (subst hc; simp [FatalErrorHere])
          · intro _ _
            refine ⟨_, rfl, ?_⟩
            intro c hc
            simp only [List.mem_cons, List.mem_singleton, List.not_mem_nil, or_false] at hc
            rcases hc with hc | hc | hc | hc <;> (subst hc; simp [FatalErrorHere])
        · refine ⟨[Call.CreateOutputResource ContentType.kContentTypeJavascript
               (env.CreateOutputResource (t ++ [Call.IsRewritable e])
                 ContentType.kContentTypeJavascript),
             Call.StartWrite (env.CreateOutputResource (t ++ [Call.IsRewritable e])
                 ContentType.kContentTypeJavascript),
             Call.WriteChunk (env.CreateOutputResource (t ++ [Call.IsRewritable e])
                 ContentType.kContentTypeJavascript) content,
             Call.EndWrite (env.CreateOutputResource (t ++ [Call.IsRewritable e])
                 ContentType.kContentTypeJavascript)] ++
              [Call.NewElement s_script_ (OutlineFilter.replacement env t e ContentType.kContentTypeJavascript content s_script_ []).addr,
               Call.DeleteElement e true,
               Call.InsertElementBeforeCurrent
                 (OutlineFilter.replacement env t e ContentType.kContentTypeJavascript content s_script_
              [⟨s_src_, (env.CreateOutputResource (t ++ [Call.IsRewritable e])
                  ContentType.kContentTypeJavascript).url, kSingleQuote⟩])], ?_, ?_, ?_⟩
          · rw [OutlineScript_written env t e _ hrw hm hw, hd]
            simp only [OutlineFilter.writeCalls, List.append_assoc, List.cons_append,
              List.nil_append, if_true]
          · intro c hc
            simp only [List.cons_append, List.nil_append, List.mem_cons,
              List.mem_singleton, List.not_mem_nil, or_false] at hc
            rcases hc with hc | hc | hc | hc | hc | hc | hc <;> (subst hc; simp)
          · intro _ _
            refine ⟨_, rfl, ?_⟩
            intro c hc
            simp only [List.mem_cons, List.mem_singleton, List.not_mem_nil, or_false] at hc
            rcases hc with hc | hc | hc <;> (subst hc; simp)

/-- The trace after a handler extends the trace before it, and a rewritability
query or a deletion is added only for the element that was buffered. -/
theorem handle_added (env : Collaborators) (s : OutlineFilter × List Call) (ev : Event) :
    ∃ added, (OutlineFilter.handle env s ev).2 = s.2 ++ added ∧
      ∀ c ∈ added, ∀ x, (c = Call.IsRewritable x ∨ ∃ b, c = Call.DeleteElement x b) →
        s.1.inline_element_ = some x.addr := by
  obtain ⟨⟨ie, b, os, osc⟩, t⟩ := s
  have hsame : ∀ l : List Call, l = t →
      ∃ added, l = t ++ added ∧
        ∀ c ∈ added, ∀ x, (c = Call.IsRewritable x ∨ ∃ b, c = Call.DeleteElement x b) →
          ie = some x.addr := by
    intro l hl
    exact ⟨[], by simp [hl], by simp⟩
  have herr : ∀ (l : List Call) (format : String) (args : List Arg),
      l = t ++ [ErrorHere format args] →
      ∃ added, l = t ++ added ∧
        ∀ c ∈ added, ∀ x, (c = Call.IsRewritable x ∨ ∃ b, c = Call.DeleteElement x b) →
          ie = some x.addr := by
    intro l format args hl
    refine ⟨[ErrorHere format args], hl, ?_⟩
    intro c hc x hx
    simp only [List.mem_singleton] at hc
    subst hc
    simp [ErrorHere] at hx
  cases ev with
  | StartDocument => exact hsame _ rfl
  | Flush => exact hsame _ rfl
  | Characters x =>
    apply hsame
    simp only [OutlineFilter.handle, OutlineFilter.Characters]
    split <;> rfl
  | IgnorableWhitespace x =>
    apply hsame
    simp only [OutlineFilter.handle, OutlineFilter.IgnorableWhitespace]
    split <;> rfl
  | Comment x =>
    cases ie with
    | none => exact hsame _ (by simp [OutlineFilter.handle, OutlineFilter.Comment])
    | some a =>
      exact herr _ "Comment found inside style/script." []
        (by simp [OutlineFilter.handle, OutlineFilter.Comment])
  | Cdata x =>
    cases ie with
    | none => exact hsame _ (by simp [OutlineFilter.handle, OutlineFilter.Cdata])
    | some a =>
      exact herr _ "CDATA found inside style/script." []
        (by simp [OutlineFilter.handle, OutlineFilter.Cdata])
  | IEDirective x =>
    cases ie with
    | none => exact hsame _ (by simp [OutlineFilter.handle, OutlineFilter.IEDirective])
    | some a =>
      exact herr _ "IE Directive found inside style/script." []
        (by simp [OutlineFilter.handle, OutlineFilter.IEDirective])
  | StartElement x =>
    cases ie with
    | none =>
      apply hsame
      simp only [OutlineFilter.handle]
      rw [StartElement_of_not_buffering _ _ _ rfl]
    | some a =>
      apply herr _ "Tag \x27%s\x27 found inside style/script." [Arg.str x.tag]
      simp only [OutlineFilter.handle]
      rw [StartElement_of_buffering _ _ _ a rfl, StartElement_of_not_buffering _ _ _ rfl]
  | EndElement x =>
    cases ie with
    | none => exact hsame _ (by simp [OutlineFilter.handle, OutlineFilter.EndElement])
    | some a =>
      simp only [OutlineFilter.handle, OutlineFilter.EndElement]
      by_cases hne : x.addr ≠ a
      · rw [if_pos hne]
        exact herr _ _ _ rfl
      · rw [if_neg hne]
        have haddr : x.addr = a := not_not.mp hne
        by_cases hst : x.tag = s_style_
        · rw [if_pos hst]
          obtain ⟨tail, htail, hprop, _⟩ := OutlineStyle_added env t x b
          refine ⟨Call.IsRewritable x :: tail, htail, ?_⟩
          intro c hc y hy
          simp only [List.mem_cons] at hc
          rcases hc with hc | hc
          · subst hc
            rcases hy with hy | ⟨d, hy⟩
            · have hxy : x = y := by simpa using hy
              rw [← hxy, haddr]
            · simp at hy
          · rcases hy with hy | ⟨d, hy⟩
            · exact absurd hy ((hprop c hc).1 y)
            · rw [(hprop c hc).2 y d hy, haddr]
        · rw [if_neg hst]
          by_cases hsc : x.tag = s_script_
          · rw [if_pos hsc]
            obtain ⟨tail, htail, hprop, _⟩ := OutlineScript_added env t x b
            refine ⟨Call.IsRewritable x :: tail, htail, ?_⟩
            intro c hc y hy
            simp only [List.mem_cons] at hc
            rcases hc with hc | hc
            · subst hc
              rcases hy with hy | ⟨d, hy⟩
              · have hxy : x = y := by simpa using hy
                rw [← hxy, haddr]
              · simp at hy
            · rcases hy with hy | ⟨d, hy⟩
              · exact absurd hy ((hprop c hc).1 y)
              · rw [(hprop c hc).2 y d hy, haddr]
          · rw [if_neg hsc]
            exact herr _ _ _ rfl

/-- An element that is not buffered and is not started again is never outlined:
no rewritability query and no deletion is made for it, whatever events follow. -/
theorem run_never_outlines_addr (env : Collaborators) (a : Nat) (events : List Event)
    (s : OutlineFilter × List Call) (hs : s.1.inline_element_ ≠ some a)
    (hev : ∀ x, Event.StartElement x ∈ events → x.addr ≠ a) :
    ∃ added, (OutlineFilter.run env s events).2 = s.2 ++ added ∧
      ∀ c ∈ added, ∀ x, x.addr = a →
        c ≠ Call.IsRewritable x ∧ ∀ b, c ≠ Call.DeleteElement x b := by
  induction events generalizing s with
  | nil => exact ⟨[], by simp [run_nil], by simp⟩
  | cons ev rest ih =>
    have hnext : (OutlineFilter.handle env s ev).1.inline_element_ ≠ some a := by
      rcases handle_inline_element env s ev with h | h | ⟨x, hx, h⟩
      · rw [h]; simp
      · rw [h]; exact hs
      · rw [h]
        have := hev x (by rw [hx]; exact List.mem_cons_self _ _)
        simpa using this
    obtain ⟨added2, h2, hp2⟩ := ih (OutlineFilter.handle env s ev) hnext
      (fun x hx => hev x (List.mem_cons_of_mem _ hx))
    obtain ⟨added1, h1, hp1⟩ := handle_added env s ev
    refine ⟨added1 ++ added2, ?_, ?_⟩
    · rw [run_cons, h2, h1, List.append_assoc]
    · intro c hc x hx
      rcases List.mem_append.mp hc with hc | hc
      · constructor
        · intro hcx
          apply hs
          rw [hp1 c hc x (Or.inl hcx), hx]
        · intro d hcx
          apply hs
          rw [hp1 c hc x (Or.inr ⟨d, hcx⟩), hx]
      · exact hp2 c hc x hx

/-- Shape of the calls WriteBytesWithExtension adds: one output resource of the
given content type is generated and opened; when StartWrite answers true the
contents are written as one chunk and no other chunk follows; when it answers
false nothing more is called. -/
theorem writeCalls_shape (env : Collaborators) (t : List Call)
    (content_type : ContentType) (contents : String) (src : Attribute) :
    ∃ rest,
      ImgRewriteFilter.writeCalls env t content_type contents src =
        Call.GenerateOutputResource content_type
            (env.GenerateOutputResource t content_type) ::
          Call.StartWrite (env.GenerateOutputResource t content_type) :: rest ∧
      ((env.GenerateOutputResource t content_type).StartWrite = true →
        ∃ rest2,
          rest = Call.WriteChunk (env.GenerateOutputResource t content_type) contents ::
            rest2 ∧
          ∀ c ∈ rest2, (∀ o x, c ≠ Call.WriteChunk o x) ∧
            ∀ ct o, c ≠ Call.GenerateOutputResource ct o) ∧
      ((env.GenerateOutputResource t content_type).StartWrite = false → rest = []) := by
  simp only [ImgRewriteFilter.writeCalls]
  cases (env.GenerateOutputResource t content_type).StartWrite <;>
  cases (env.GenerateOutputResource t content_type).WriteChunk <;>
  cases (env.GenerateOutputResource t content_type).EndWrite <;>
  cases (env.GenerateOutputResource t content_type).IsReadable <;>
  simp [Info]

/-! ## Theorems -/

/-- C1: WriteBytesWithExtension sets the value of the src attribute to the url of
the newly generated output resource exactly when StartWrite, WriteChunk and
EndWrite all answered true and IsReadable is true (this is also exactly when the
remapping is logged); in every other case the attribute is left as it was. -/
theorem C1_WriteBytesWithExtension_sets_src_iff_written_and_readable
    (env : Collaborators) (t : List Call) (content_type : ContentType)
    (contents : String) (src : Attribute) :
    let r := env.GenerateOutputResource t content_type
    let out := ImgRewriteFilter.WriteBytesWithExtension env t content_type contents src
    let ok := r.StartWrite && r.WriteChunk && r.EndWrite && r.IsReadable
    (ok = true → out.1 = { src with value := r.url }) ∧
    (ok = false → out.1 = src) ∧
    (Info src.value "Remapped to %s" [Arg.str r.url] ∈ out.2.drop t.length ↔ ok = true) := by
  intro r out ok
  simp only [out, ok, r, ImgRewriteFilter.WriteBytesWithExtension]
  cases h1 : (env.GenerateOutputResource t content_type).StartWrite <;>
  cases h2 : (env.GenerateOutputResource t content_type).WriteChunk <;>
  cases h3 : (env.GenerateOutputResource t content_type).EndWrite <;>
  cases h4 : (env.GenerateOutputResource t content_type).IsReadable <;>
  simp [Info]

/-- C2: for a rewritable style (resp. script) element, the Outline operation
requests an output resource exactly when the element has no type attribute or
its first type attribute has the value text/css (resp. text/javascript); when the
declared type does not match, the only calls made are the rewritability query and
one informational message: no output resource, no replacement element, no
insertion and no deletion. -/
theorem C2_outline_requests_resource_iff_type_matches
    (env : Collaborators) (t : List Call) (e : HtmlElement) (content : String)
    (hrw : env.IsRewritable t e = true) :
    let declared := fun (expected : String) =>
      (∀ a ∈ e.attributes, a.name ≠ "type") ∨
        ∃ a, e.FirstAttributeWithName "type" = some a ∧ a.value = expected
    ((∃ c ∈ (OutlineFilter.OutlineStyle env t e content).drop t.length,
        c.createsResource = true) ↔ declared "text/css") ∧
    (¬ declared "text/css" →
      OutlineFilter.OutlineStyle env t e content =
        t ++ [Call.IsRewritable e,
              Call.Message MessageType.kInfo "Cannot outline non-css stylesheet %s"
                [Arg.element e]]) ∧
    ((∃ c ∈ (OutlineFilter.OutlineScript env t e content).drop t.length,
        c.createsResource = true) ↔ declared "text/javascript") ∧
    (¬ declared "text/javascript" →
      OutlineFilter.OutlineScript env t e content =
        t ++ [Call.IsRewritable e,
              Call.Message MessageType.kInfo "Cannot outline non-javascript script %s"
                [Arg.element e]]) := by
  intro declared
  have hcss : OutlineFilter.typeMatches (e.FirstAttributeWithName s_type_) kTextCss = true ↔
      declared "text/css" := typeMatches_iff e kTextCss
  have hjs : OutlineFilter.typeMatches (e.FirstAttributeWithName s_type_) kTextJavascript
      = true ↔ declared "text/javascript" := typeMatches_iff e kTextJavascript
  refine ⟨?_, ?_, ?_, ?_⟩
  · rw [← hcss]
    cases hm : OutlineFilter.typeMatches (e.FirstAttributeWithName s_type_) kTextCss
    · rw [OutlineStyle_mismatch env t e content hrw hm]
      simp [InfoHere, Call.createsResource]
    · cases hw : OutlineFilter.writeWorked env t e ContentType.kContentTypeCss
      · rw [OutlineStyle_write_failed env t e content hrw hm hw]
        simp [OutlineFilter.writeCalls, Call.createsResource, List.append_assoc]
      · rw [OutlineStyle_written env t e content hrw hm hw]
        simp [OutlineFilter.writeCalls, Call.createsResource, List.append_assoc]
  · intro hnot
    rw [← hcss, Bool.not_eq_true] at hnot
    exact OutlineStyle_mismatch env t e content hrw hnot
  · rw [← hjs]
    cases hm : OutlineFilter.typeMatches (e.FirstAttributeWithName s_type_) kTextJavascript
    · rw [OutlineScript_mismatch env t e content hrw hm]
      simp [InfoHere, Call.createsResource]
    · cases hw : OutlineFilter.writeWorked env t e ContentType.kContentTypeJavascript
      · rw [OutlineScript_write_failed env t e content hrw hm hw]
        simp [OutlineFilter.writeCalls, Call.createsResource, List.append_assoc]
      · rw [OutlineScript_written env t e content hrw hm hw]
        simp [OutlineFilter.writeCalls, Call.createsResource, List.append_assoc]
  · intro hnot
    rw [← hjs, Bool.not_eq_true] at hnot
    exact OutlineScript_mismatch env t e content hrw hnot

/-- C2 witness: `<style type="text/plain">` is rewritable, its declared type does
not match, and the Outline operation only logs an informational message. -/
theorem C2_witness_style_text_plain :
    demoEnv.IsRewritable [] stylePlain = true ∧
    OutlineFilter.OutlineStyle demoEnv [] stylePlain "a:b" =
      [Call.IsRewritable stylePlain,
       Call.Message MessageType.kInfo "Cannot outline non-css stylesheet %s"
         [Arg.element stylePlain]] :=
  ⟨by decide,
   (C2_outline_requests_resource_iff_type_matches demoEnv [] stylePlain "a:b"
      (by decide)).2.1 (by decide)⟩

/-- C3: when StartElement(e), text events t1..tn and EndElement(e) are delivered
to an Idle filter, e being a style element with outline_styles enabled or a
script element without src attribute with outline_scripts enabled, the outcome is
that of running the Outline operation exactly once, on e, with the concatenation
of the texts in event order as content: the calls added to the trace start with
the one rewritability query on e and hold no other; when e is rewritable and its
declared type matches, they go on with the creation of one output resource and
StartWrite, WriteChunk of exactly that concatenation and EndWrite on it, and no
other chunk is written and no other resource created; the filter is Idle with an
empty buffer afterwards. -/
theorem C3_start_texts_end_outlines_concatenation
    (env : Collaborators) (f : OutlineFilter) (t : List Call) (e : HtmlElement)
    (texts : List Event)
    (hidle : f.Idle)
    (hq : (f.outline_styles_ = true ∧ e.tag = "style") ∨
          (f.outline_scripts_ = true ∧ e.tag = "script" ∧
            ∀ a ∈ e.attributes, a.name ≠ "src"))
    (htexts : ∀ ev ∈ texts, ev.isText = true) :
    let final := OutlineFilter.run env (f, t)
      (Event.StartElement e :: texts ++ [Event.EndElement e])
    (e.tag = "style" →
      final.2 = OutlineFilter.OutlineStyle env t e (textOf texts)) ∧
    (e.tag = "script" →
      final.2 = OutlineFilter.OutlineScript env t e (textOf texts)) ∧
    (∀ r c, Call.WriteChunk r c ∈ final.2.drop t.length → c = textOf texts) ∧
    final.1.Idle ∧ final.1 = f ∧
    (∃ tail, final.2 = t ++ Call.IsRewritable e :: tail ∧
      ∀ c ∈ tail, ∀ x, c ≠ Call.IsRewritable x) ∧
    (e.tag = "style" → env.IsRewritable t e = true →
      ((∀ a ∈ e.attributes, a.name ≠ "type") ∨
        ∃ a, e.FirstAttributeWithName "type" = some a ∧ a.value = "text/css") →
      ∃ rest,
        final.2 =
          t ++ [Call.IsRewritable e,
                Call.CreateOutputResource ContentType.kContentTypeCss
                  (env.CreateOutputResource (t ++ [Call.IsRewritable e])
                    ContentType.kContentTypeCss),
                Call.StartWrite (env.CreateOutputResource (t ++ [Call.IsRewritable e])
                    ContentType.kContentTypeCss),
                Call.WriteChunk (env.CreateOutputResource (t ++ [Call.IsRewritable e])
                    ContentType.kContentTypeCss) (textOf texts),
                Call.EndWrite (env.CreateOutputResource (t ++ [Call.IsRewritable e])
                    ContentType.kContentTypeCss)] ++ rest ∧
        ∀ c ∈ rest, (∀ o x, c ≠ Call.WriteChunk o x) ∧
          ∀ ct o, c ≠ Call.CreateOutputResource ct o) ∧
    (e.tag = "script" → env.IsRewritable t e = true →
      ((∀ a ∈ e.attributes, a.name ≠ "type") ∨
        ∃ a, e.FirstAttributeWithName "type" = some a ∧ a.value = "text/javascript") →
      ∃ rest,
        final.2 =
          t ++ [Call.IsRewritable e,
                Call.CreateOutputResource ContentType.kContentTypeJavascript
                  (env.CreateOutputResource (t ++ [Call.IsRewritable e])
                    ContentType.kContentTypeJavascript),
                Call.StartWrite (env.CreateOutputResource (t ++ [Call.IsRewritable e])
                    ContentType.kContentTypeJavascript),
                Call.WriteChunk (env.CreateOutputResource (t ++ [Call.IsRewritable e])
                    ContentType.kContentTypeJavascript) (textOf texts),
                Call.EndWrite (env.CreateOutputResource (t ++ [Call.IsRewritable e])
                    ContentType.kContentTypeJavascript)] ++ rest ∧
        ∀ c ∈ rest, (∀ o x, c ≠ Call.WriteChunk o x) ∧
          ∀ ct o, c ≠ Call.CreateOutputResource ct o) := by
  intro final
  obtain ⟨ie, b, os, osc⟩ := f
  obtain ⟨h1, h2⟩ := hidle
  simp only at h1 h2 hq
  subst h1 h2
  have hqual : OutlineFilter.qualifies ⟨none, "", os, osc⟩ e = true := by
    rcases hq with ⟨ho, ht⟩ | ⟨ho, ht, hs⟩
    · simp [OutlineFilter.qualifies, ho, ht, s_style_, Intern]
    · simp only [OutlineFilter.qualifies, ho, ht, s_script_, s_src_, Intern]
      simp
      exact Or.inr hs
  have hfinal : final =
      OutlineFilter.EndElement env ⟨some e.addr, "" ++ textOf texts, os, osc⟩ t e := by
    simp only [final]
    rw [List.cons_append, run_cons, run_append]
    simp only [OutlineFilter.handle]
    rw [StartElement_of_not_buffering _ _ _ rfl, hqual]
    simp only [if_true]
    rw [run_texts_buffering env texts htexts]
    simp [run_cons, run_nil, OutlineFilter.handle]
  simp only [String.empty_append] at hfinal
  have hstyle : e.tag = "style" →
      final.2 = OutlineFilter.OutlineStyle env t e (textOf texts) := by
    intro ht
    rw [hfinal]
    simp [OutlineFilter.EndElement, ht, s_style_, Intern]
  have hscript : e.tag = "script" →
      final.2 = OutlineFilter.OutlineScript env t e (textOf texts) := by
    intro ht
    rw [hfinal]
    simp [OutlineFilter.EndElement, ht, s_style_, s_script_, Intern]
  have htag : e.tag = "style" ∨ e.tag = "script" := by
    rcases hq with ⟨_, ht⟩ | ⟨_, ht, _⟩
    · exact Or.inl ht
    · exact Or.inr ht
  refine ⟨hstyle, hscript, ?_, ?_, ?_, ?_, ?_, ?_⟩
  · intro r c hmem
    rcases htag with ht | ht
    · rw [hstyle ht] at hmem
      cases hrw : env.IsRewritable t e
      · rw [OutlineStyle_not_rewritable env t e _ hrw] at hmem
        simp at hmem
      · cases hm : OutlineFilter.typeMatches (e.FirstAttributeWithName s_type_) kTextCss
        · rw [OutlineStyle_mismatch env t e _ hrw hm] at hmem
          simp [InfoHere] at hmem
        · cases hw : OutlineFilter.writeWorked env t e ContentType.kContentTypeCss
          · rw [OutlineStyle_write_failed env t e _ hrw hm hw] at hmem
            simp [OutlineFilter.writeCalls, List.append_assoc, ErrorHere] at hmem
            exact hmem.2
          · rw [OutlineStyle_written env t e _ hrw hm hw] at hmem
            simp only [OutlineFilter.writeCalls, List.append_assoc, List.drop_left] at hmem
            split at hmem <;> simp [FatalErrorHere] at hmem <;> exact hmem.2
    · rw [hscript ht] at hmem
      cases hrw : env.IsRewritable t e
      · rw [OutlineScript_not_rewritable env t e _ hrw] at hmem
        simp at hmem
      · cases hm : OutlineFilter.typeMatches (e.FirstAttributeWithName s_type_)
          kTextJavascript
        · rw [OutlineScript_mismatch env t e _ hrw hm] at hmem
          simp [InfoHere] at hmem
        · cases hw : OutlineFilter.writeWorked env t e ContentType.kContentTypeJavascript
          · rw [OutlineScript_write_failed env t e _ hrw hm hw] at hmem
            simp [OutlineFilter.writeCalls, List.append_assoc, ErrorHere] at hmem
            exact hmem.2
          · rw [OutlineScript_written env t e _ hrw hm hw] at hmem
            simp only [OutlineFilter.writeCalls, List.append_assoc, List.drop_left] at hmem
            split at hmem <;> simp [FatalErrorHere] at hmem <;> exact hmem.2
  · rw [hfinal]
    simp [OutlineFilter.EndElement, OutlineFilter.Idle]
  · rw [hfinal]
    simp [OutlineFilter.EndElement]
  · rcases htag with ht | ht
    · obtain ⟨tail, htail, hprop, _⟩ := OutlineStyle_added env t e (textOf texts)
      exact ⟨tail, by rw [hstyle ht, htail], fun c hc => (hprop c hc).1⟩
    · obtain ⟨tail, htail, hprop, _⟩ := OutlineScript_added env t e (textOf texts)
      exact ⟨tail, by rw [hscript ht, htail], fun c hc => (hprop c hc).1⟩
  · intro ht hrw hdecl
    obtain ⟨tail, htail, _, hwrite⟩ := OutlineStyle_added env t e (textOf texts)
    obtain ⟨rest, hrest, hprop⟩ := hwrite hrw ((typeMatches_iff e kTextCss).mpr hdecl)
    refine ⟨rest, ?_, hprop⟩
    rw [hstyle ht, htail, hrest]
    simp
  · intro ht hrw hdecl
    obtain ⟨tail, htail, _, hwrite⟩ := OutlineScript_added env t e (textOf texts)
    obtain ⟨rest, hrest, hprop⟩ :=
      hwrite hrw ((typeMatches_iff e kTextJavascript).mpr hdecl)
    refine ⟨rest, ?_, hprop⟩
    rw [hscript ht, htail, hrest]
    simp

/-- C3 witness: `<script>console.log(1)</script>` with outlining of scripts
enabled writes exactly `console.log(1)` as the sole chunk of the resource; and a
style element whose text arrives in three events has the three texts written as
one chunk, in event order. -/
theorem C3_witness_script_console_log :
    (OutlineFilter.run demoEnv (OutlineFilter.new false true, [])
      [Event.StartElement scriptInline, Event.Characters "console.log(1)",
       Event.EndElement scriptInline]).2 =
      OutlineFilter.OutlineScript demoEnv [] scriptInline "console.log(1)" ∧
    OutlineFilter.OutlineScript demoEnv [] scriptInline "console.log(1)" =
      [Call.IsRewritable scriptInline,
       Call.CreateOutputResource ContentType.kContentTypeJavascript
         ⟨true, true, true, true, "http://out/1"⟩,
       Call.StartWrite ⟨true, true, true, true, "http://out/1"⟩,
       Call.WriteChunk ⟨true, true, true, true, "http://out/1"⟩ "console.log(1)",
       Call.EndWrite ⟨true, true, true, true, "http://out/1"⟩,
       Call.NewElement "script" 1005,
       Call.DeleteElement scriptInline true,
       Call.InsertElementBeforeCurrent
         ⟨1005, "script", [⟨"src", "http://out/1", "\x27"⟩]⟩] ∧
    (∃ rest,
      (OutlineFilter.run demoEnv (OutlineFilter.new false true, [])
        (Event.StartElement scriptInline :: [Event.Characters "console.log(1)"] ++
          [Event.EndElement scriptInline])).2 =
        [] ++ [Call.IsRewritable scriptInline,
               Call.CreateOutputResource ContentType.kContentTypeJavascript
                 (demoEnv.CreateOutputResource ([] ++ [Call.IsRewritable scriptInline])
                   ContentType.kContentTypeJavascript),
               Call.StartWrite
                 (demoEnv.CreateOutputResource ([] ++ [Call.IsRewritable scriptInline])
                   ContentType.kContentTypeJavascript),
               Call.WriteChunk
                 (demoEnv.CreateOutputResource ([] ++ [Call.IsRewritable scriptInline])
                   ContentType.kContentTypeJavascript)
                 (textOf [Event.Characters "console.log(1)"]),
               Call.EndWrite
                 (demoEnv.CreateOutputResource ([] ++ [Call.IsRewritable scriptInline])
                   ContentType.kContentTypeJavascript)] ++ rest ∧
      (∀ c ∈ rest, (∀ o x, c ≠ Call.WriteChunk o x) ∧
        ∀ ct o, c ≠ Call.CreateOutputResource ct o)) ∧
    (OutlineFilter.run demoEnv (OutlineFilter.new true false, [])
      [Event.StartElement styleMedia, Event.Characters "a:", Event.IgnorableWhitespace " ",
       Event.Characters "b", Event.EndElement styleMedia]) =
      (OutlineFilter.new true false,
       [Call.IsRewritable styleMedia,
        Call.CreateOutputResource ContentType.kContentTypeCss
          ⟨true, true, true, true, "http://out/1"⟩,
        Call.StartWrite ⟨true, true, true, true, "http://out/1"⟩,
        Call.WriteChunk ⟨true, true, true, true, "http://out/1"⟩ "a: b",
        Call.EndWrite ⟨true, true, true, true, "http://out/1"⟩,
        Call.NewElement "link" 1005,
        Call.DeleteElement styleMedia true,
        Call.InsertElementBeforeCurrent
          ⟨1005, "link",
           [⟨"rel", "stylesheet", "\x27"⟩, ⟨"href", "http://out/1", "\x27"⟩,
            ⟨"media", "print", "\""⟩]⟩]) :=
  ⟨(C3_start_texts_end_outlines_concatenation demoEnv (OutlineFilter.new false true) []
      scriptInline [Event.Characters "console.log(1)"] ⟨rfl, rfl⟩ (by decide)
      (by decide)).2.1 (by decide),
   by decide,
   (C3_start_texts_end_outlines_concatenation demoEnv (OutlineFilter.new false true) []
      scriptInline [Event.Characters "console.log(1)"] ⟨rfl, rfl⟩ (by decide)
      (by decide)).2.2.2.2.2.2.2 (by decide) (by decide) (by decide),
   by decide⟩

/-- C4 counterexample: while `<script>` is buffered, the start of a nested
`<style media="print">` is a structural error and is logged, yet the nested style
is then buffered itself and outlined at its own end, before the end of the
script: an output resource is created, the style element is deleted and a link
element is inserted inside the block. -/
theorem C4_counterexample_nested_style_outlined_inside_script :
    (OutlineFilter.run demoEnv (OutlineFilter.new true true, [])
      [Event.StartElement scriptInline]).1.inline_element_ = some scriptInline.addr ∧
    (OutlineFilter.run demoEnv (OutlineFilter.new true true, [])
      [Event.StartElement scriptInline, Event.StartElement styleMedia,
       Event.Characters "a:b", Event.EndElement styleMedia,
       Event.EndElement scriptInline]).2 =
      [Call.Message MessageType.kError "Tag \x27%s\x27 found inside style/script."
         [Arg.str "style"],
       Call.IsRewritable styleMedia,
       Call.CreateOutputResource ContentType.kContentTypeCss
         ⟨true, true, true, true, "http://out/1"⟩,
       Call.StartWrite ⟨true, true, true, true, "http://out/1"⟩,
       Call.WriteChunk ⟨true, true, true, true, "http://out/1"⟩ "a:b",
       Call.EndWrite ⟨true, true, true, true, "http://out/1"⟩,
       Call.NewElement "link" 1006,
       Call.DeleteElement styleMedia true,
       Call.InsertElementBeforeCurrent
         ⟨1006, "link",
          [⟨"rel", "stylesheet", "\x27"⟩, ⟨"href", "http://out/1", "\x27"⟩,
           ⟨"media", "print", "\""⟩]⟩] := by
  decide

/-- C4 (amended): when a structural error event arrives while an element e is
buffered, the handler logs exactly one error and discards the buffer, and e is no
longer buffered (the event not being a start of e itself).  As long as e is not
started again, e is never outlined, whatever events follow up to and including
its end: no rewritability query and no deletion is made for it.  If moreover
neither that event nor any later event is the start of an element that itself
qualifies for outlining, the one error message is the filter's only call: no
output resource is created, nothing is inserted or deleted, and the filter ends
with no buffered element and an empty buffer. -/
theorem C4_structural_error_leaves_block_unmodified
    (env : Collaborators) (f : OutlineFilter) (t : List Call) (a : Nat)
    (ev : Event) (rest : List Event)
    (hbuf : f.inline_element_ = some a)
    (herr : ev.structuralError a = true) :
    (∃ format args,
      (OutlineFilter.handle env (f, t) ev).2 =
        t ++ [Call.Message MessageType.kError format args]) ∧
    (OutlineFilter.handle env (f, t) ev).1.buffer_ = "" ∧
    ((∀ x, ev = Event.StartElement x → x.addr ≠ a) →
      (OutlineFilter.handle env (f, t) ev).1.inline_element_ ≠ some a) ∧
    ((∀ x, Event.StartElement x ∈ ev :: rest → x.addr ≠ a) →
      ∀ c ∈ (OutlineFilter.run env (f, t) (ev :: rest)).2.drop t.length,
        ∀ x, x.addr = a → c ≠ Call.IsRewritable x ∧ ∀ b, c ≠ Call.DeleteElement x b) ∧
    ((∀ x, Event.StartElement x ∈ ev :: rest → f.qualifies x = false) →
      ∃ format args,
        OutlineFilter.run env (f, t) (ev :: rest) =
          ({ f with inline_element_ := none, buffer_ := "" },
           t ++ [Call.Message MessageType.kError format args])) := by
  obtain ⟨ie, b, os, osc⟩ := f
  simp only at hbuf
  subst hbuf
  -- the error event: one error message, the buffer discarded, and the element
  -- buffered afterwards is none or the element just started
  have hstep : ∃ format args,
      (OutlineFilter.handle env (⟨some a, b, os, osc⟩, t) ev).2 =
        t ++ [Call.Message MessageType.kError format args] ∧
      (OutlineFilter.handle env (⟨some a, b, os, osc⟩, t) ev).1.buffer_ = "" ∧
      (OutlineFilter.handle env (⟨some a, b, os, osc⟩, t) ev).1.outline_styles_ = os ∧
      (OutlineFilter.handle env (⟨some a, b, os, osc⟩, t) ev).1.outline_scripts_ = osc ∧
      ((OutlineFilter.handle env (⟨some a, b, os, osc⟩, t) ev).1.inline_element_ = none ∨
        ∃ x, ev = Event.StartElement x ∧
          OutlineFilter.qualifies ⟨none, "", os, osc⟩ x = true ∧
          (OutlineFilter.handle env (⟨some a, b, os, osc⟩, t) ev).1.inline_element_ =
            some x.addr) := by
    cases ev with
    | StartElement x =>
      refine ⟨"Tag \x27%s\x27 found inside style/script.", [Arg.str x.tag], ?_⟩
      simp only [OutlineFilter.handle]
      rw [StartElement_of_buffering _ _ _ a rfl, StartElement_of_not_buffering _ _ _ rfl]
      cases hq : OutlineFilter.qualifies ⟨none, "", os, osc⟩ x
      · simp only [Bool.false_eq_true, if_false]
        refine ⟨rfl, ?_, ?_, ?_, Or.inl ?_⟩ <;> (split <;> rfl)
      · rw [if_pos rfl]
        exact ⟨rfl, rfl, rfl, rfl, Or.inr ⟨x, rfl, hq, rfl⟩⟩
    | EndElement x =>
      have hx : x.addr ≠ a := by simpa [Event.structuralError] using herr
      refine ⟨"Tag \x27%s\x27 found inside style/script.", [Arg.str x.tag], ?_⟩
      simp [OutlineFilter.handle, OutlineFilter.EndElement, hx, ErrorHere]
    | Comment c =>
      exact ⟨"Comment found inside style/script.", [], by
        simp [OutlineFilter.handle, OutlineFilter.Comment, ErrorHere]⟩
    | Cdata c =>
      exact ⟨"CDATA found inside style/script.", [], by
        simp [OutlineFilter.handle, OutlineFilter.Cdata, ErrorHere]⟩
    | IEDirective c =>
      exact ⟨"IE Directive found inside style/script.", [], by
        simp [OutlineFilter.handle, OutlineFilter.IEDirective, ErrorHere]⟩
    | StartDocument => simp [Event.structuralError] at herr
    | Flush => simp [Event.structuralError] at herr
    | Characters c => simp [Event.structuralError] at herr
    | IgnorableWhitespace c => simp [Event.structuralError] at herr
  obtain ⟨format, args, htrace, hbuffer, hos, hosc, hinline⟩ := hstep
  have hnot : (∀ x, ev = Event.StartElement x → x.addr ≠ a) →
      (OutlineFilter.handle env (⟨some a, b, os, osc⟩, t) ev).1.inline_element_ ≠ some a := by
    intro hstart
    rcases hinline with h | ⟨x, hx, _, h⟩
    · rw [h]; simp
    · rw [h]
      have := hstart x hx
      simpa using this
  refine ⟨⟨format, args, htrace⟩, hbuffer, hnot, ?_, ?_⟩
  · intro hstart c hc x hx
    obtain ⟨added, hadd, hprop⟩ := run_never_outlines_addr env a rest
      (OutlineFilter.handle env (⟨some a, b, os, osc⟩, t) ev)
      (hnot (fun y hy => hstart y (by rw [hy]; exact List.mem_cons_self _ _)))
      (fun y hy => hstart y (List.mem_cons_of_mem _ hy))
    rw [run_cons, hadd, htrace, List.append_assoc, List.drop_left] at hc
    simp only [List.singleton_append, List.mem_cons] at hc
    rcases hc with hc | hc
    · subst hc
      simp
    · exact hprop c hc x hx
  · intro hnq
    have hrest : ∀ x, Event.StartElement x ∈ rest →
        OutlineFilter.qualifies ⟨none, "", os, osc⟩ x = false :=
      fun x hx => hnq x (List.mem_cons_of_mem _ hx)
    have hnone : (OutlineFilter.handle env (⟨some a, b, os, osc⟩, t) ev).1.inline_element_
        = none := by
      rcases hinline with h | ⟨x, hx, hq, _⟩
      · exact h
      · have hq2 : OutlineFilter.qualifies ⟨none, "", os, osc⟩ x = false :=
          hnq x (by rw [hx]; exact List.mem_cons_self _ _)
        rw [hq2] at hq
        exact absurd hq (by simp)
    have hstate : OutlineFilter.handle env (⟨some a, b, os, osc⟩, t) ev =
        (⟨none, "", os, osc⟩, t ++ [Call.Message MessageType.kError format args]) := by
      cases hh : OutlineFilter.handle env (⟨some a, b, os, osc⟩, t) ev with
      | mk g tr =>
        rw [hh] at htrace hbuffer hos hosc hnone
        obtain ⟨gi, gb, gos, gosc⟩ := g
        simp only at htrace hbuffer hos hosc hnone
        subst htrace hbuffer hos hosc hnone
        rfl
    refine ⟨format, args, ?_⟩
    rw [run_cons, hstate]
    exact run_idle_of_no_qualifying_start env _ _ rest ⟨rfl, rfl⟩ hrest

/-- C4 witness: `<style>` buffered, then a nested `<div>` with text and its end,
then the end of the style: one error message and nothing else.  And with
`<script>` buffered and a nested `<style media="print">` outlined inside it, no
rewritability query and no deletion is made for the script element. -/
theorem C4_witness_div_inside_style :
    (⟨some 2, "a", true, true⟩ : OutlineFilter).inline_element_ = some 2 ∧
    (∃ format args,
      OutlineFilter.run demoEnv (⟨some 2, "a", true, true⟩, [])
        (Event.StartElement divElement ::
          [Event.Characters "x", Event.EndElement divElement,
           Event.EndElement styleMedia]) =
        (⟨none, "", true, true⟩, [] ++ [Call.Message MessageType.kError format args])) ∧
    (∀ c ∈ (OutlineFilter.run demoEnv (⟨some 3, "var a;", true, true⟩, [])
              (Event.StartElement styleMedia ::
                [Event.Characters "a:b", Event.EndElement styleMedia,
                 Event.EndElement scriptInline])).2.drop ([] : List Call).length,
      ∀ x, x.addr = 3 → c ≠ Call.IsRewritable x ∧ ∀ b, c ≠ Call.DeleteElement x b) :=
  ⟨rfl,
   (C4_structural_error_leaves_block_unmodified demoEnv ⟨some 2, "a", true, true⟩ [] 2
     (Event.StartElement divElement)
     [Event.Characters "x", Event.EndElement divElement, Event.EndElement styleMedia]
     rfl (by decide)).2.2.2.2
     (by
       intro x hx
       have hdiv : x = divElement := by simpa using hx
       rw [hdiv]
       decide),
   (C4_structural_error_leaves_block_unmodified demoEnv ⟨some 3, "var a;", true, true⟩
     [] 3 (Event.StartElement styleMedia)
     [Event.Characters "a:b", Event.EndElement styleMedia, Event.EndElement scriptInline]
     rfl (by decide)).2.2.2.1
     (by
       intro x hx
       have hstyle : x = styleMedia := by simpa using hx
       rw [hstyle]
       decide)⟩

/-- C5 counterexample: the filter buffers `<script>` (with text already
accumulated) and outline_styles is enabled; StartElement of a style element
reports the error but leaves the filter buffering the style element, not Idle. -/
theorem C5_counterexample_nested_style_is_buffered :
    OutlineFilter.StartElement ⟨some 3, "var a;", true, true⟩ [] styleMedia =
      (⟨some 2, "", true, true⟩,
       [Call.Message MessageType.kError "Tag \x27%s\x27 found inside style/script."
          [Arg.str "style"]]) ∧
    ¬ (OutlineFilter.StartElement ⟨some 3, "var a;", true, true⟩ [] styleMedia).1.Idle := by
  refine ⟨by decide, ?_⟩
  intro h
  exact absurd h.1 (by decide)

/-- C5 (amended): for every Buffering state, every configuration and every
element x, StartElement(x) reports exactly one error (the nested tag) and
discards the buffer; on return the buffer is empty, and the filter is Idle unless
x itself qualifies for outlining, in which case it buffers x. -/
theorem C5_StartElement_while_buffering
    (f : OutlineFilter) (t : List Call) (x : HtmlElement) (a : Nat)
    (hbuf : f.inline_element_ = some a) :
    let r := OutlineFilter.StartElement f t x
    r.2 = t ++ [Call.Message MessageType.kError
                  "Tag \x27%s\x27 found inside style/script." [Arg.str x.tag]] ∧
    r.1.buffer_ = "" ∧
    (f.qualifies x = false → r.1.Idle) ∧
    (f.qualifies x = true → r.1.inline_element_ = some x.addr) ∧
    r.1.outline_styles_ = f.outline_styles_ ∧
    r.1.outline_scripts_ = f.outline_scripts_ := by
  intro r
  obtain ⟨ie, b, os, osc⟩ := f
  simp only at hbuf
  subst hbuf
  have hr : r = OutlineFilter.StartElement ⟨none, "", os, osc⟩
      (t ++ [ErrorHere "Tag \x27%s\x27 found inside style/script." [Arg.str x.tag]]) x :=
    StartElement_of_buffering _ _ _ a rfl
  rw [StartElement_of_not_buffering _ _ _ rfl] at hr
  have hq : OutlineFilter.qualifies ⟨some a, b, os, osc⟩ x =
      OutlineFilter.qualifies ⟨none, "", os, osc⟩ x := rfl
  rw [hr, hq]
  cases hqual : OutlineFilter.qualifies ⟨none, "", os, osc⟩ x
  · simp only [Bool.false_eq_true, if_false]
    refine ⟨rfl, ?_, ?_, ?_, ?_, ?_⟩
    · split <;> rfl
    · intro _
      constructor <;> (split <;> rfl)
    · intro h; exact absurd h (by simp)
    · split <;> rfl
    · split <;> rfl
  · simp [ErrorHere]

/-- C5 witness: a `<div>` started while `<style>` is buffered: one error, and the
filter is Idle with an empty buffer. -/
theorem C5_witness_div_while_buffering :
    (⟨some 2, "a", true, true⟩ : OutlineFilter).inline_element_ = some 2 ∧
    (OutlineFilter.StartElement ⟨some 2, "a", true, true⟩ [] divElement).2 =
      [] ++ [Call.Message MessageType.kError
               "Tag \x27%s\x27 found inside style/script." [Arg.str divElement.tag]] ∧
    (OutlineFilter.StartElement ⟨some 2, "a", true, true⟩ [] divElement).1.Idle :=
  ⟨rfl,
   (C5_StartElement_while_buffering ⟨some 2, "a", true, true⟩ [] divElement 2 rfl).1,
   (C5_StartElement_while_buffering ⟨some 2, "a", true, true⟩ [] divElement 2 rfl).2.2.1
     (by decide)⟩

/-- C6: StartElement(x) on an Idle filter makes the filter buffer x with an
empty buffer exactly when outline_styles is enabled and x is a style element, or
outline_scripts is enabled and x is a script element without an attribute named
src; in every other case the filter stays Idle with an empty buffer; nothing is
logged in either case. -/
theorem C6_StartElement_on_idle_buffers_iff_qualifying
    (f : OutlineFilter) (t : List Call) (x : HtmlElement) (hidle : f.Idle) :
    let r := OutlineFilter.StartElement f t x
    let qualifying :=
      (f.outline_styles_ = true ∧ x.tag = "style") ∨
      (f.outline_scripts_ = true ∧ x.tag = "script" ∧ ∀ a ∈ x.attributes, a.name ≠ "src")
    (r.1.inline_element_ = some x.addr ↔ qualifying) ∧
    (qualifying → r.1 = { f with inline_element_ := some x.addr, buffer_ := "" }) ∧
    (¬ qualifying → r.1.Idle ∧ r.1 = f) ∧
    r.2 = t := by
  intro r qualifying
  obtain ⟨ie, b, os, osc⟩ := f
  obtain ⟨h1, h2⟩ := hidle
  simp only at h1 h2
  subst h1 h2
  have hqual : OutlineFilter.qualifies ⟨none, "", os, osc⟩ x = true ↔ qualifying := by
    simp [OutlineFilter.qualifies, qualifying, s_style_, s_script_, s_src_, Intern,
      and_assoc]
  have hr : r = OutlineFilter.StartElement ⟨none, "", os, osc⟩ t x := rfl
  rw [StartElement_of_not_buffering _ _ _ rfl] at hr
  cases hq : OutlineFilter.qualifies ⟨none, "", os, osc⟩ x
  · have hnot : ¬ qualifying := by rw [← hqual, hq]; simp
    simp only [hq, Bool.false_eq_true, if_false] at hr
    have hr1 : r.1 = ⟨none, "", os, osc⟩ := by
      rw [hr]; split <;> rfl
    refine ⟨?_, ?_, ?_, ?_⟩
    · rw [hr1]; simp [hnot]
    · intro h; exact absurd h hnot
    · intro _; rw [hr1]; exact ⟨⟨rfl, rfl⟩, rfl⟩
    · rw [hr]
  · have hyes : qualifying := hqual.mp hq
    simp only [hq, if_true] at hr
    refine ⟨?_, ?_, ?_, ?_⟩
    · rw [hr]; simp [hyes]
    · intro _; rw [hr]
    · intro h; exact absurd hyes h
    · rw [hr]

/-- C6 witness: `<script type="text/javascript" defer="defer">` has no src
attribute, so an Idle filter with outline_scripts enabled buffers it. -/
theorem C6_witness_script_without_src :
    (OutlineFilter.new false true).Idle ∧
    (OutlineFilter.StartElement (OutlineFilter.new false true) [] scriptTyped).1 =
      { OutlineFilter.new false true with inline_element_ := some scriptTyped.addr,
                                           buffer_ := "" } :=
  ⟨⟨rfl, rfl⟩,
   (C6_StartElement_on_idle_buffers_iff_qualifying (OutlineFilter.new false true) []
      scriptTyped ⟨rfl, rfl⟩).2.1 (by decide)⟩

/-- C7: on a successful outline (rewritable element, matching type, all three
write steps answering true) exactly one element is inserted. For a style element
it is a link element whose attributes are rel=stylesheet and href=url of the
output resource followed by every attribute of the original in its original
order with the same name, value and quote; for a script element it is a script
element whose attributes are src=url followed by every original attribute in
order. -/
theorem C7_replacement_carries_over_all_attributes
    (env : Collaborators) (t : List Call) (e : HtmlElement) (content : String)
    (hrw : env.IsRewritable t e = true) :
    (OutlineFilter.typeMatches (e.FirstAttributeWithName "type") "text/css" = true →
      OutlineFilter.writeWorked env t e ContentType.kContentTypeCss = true →
      ∃ x, (∀ y, Call.InsertElementBeforeCurrent y ∈
              (OutlineFilter.OutlineStyle env t e content).drop t.length ↔ y = x) ∧
        x.tag = "link" ∧
        x.attributes =
          [⟨"rel", "stylesheet", "\x27"⟩,
           ⟨"href", (env.CreateOutputResource (t ++ [Call.IsRewritable e])
                      ContentType.kContentTypeCss).url, "\x27"⟩] ++ e.attributes) ∧
    (OutlineFilter.typeMatches (e.FirstAttributeWithName "type") "text/javascript" = true →
      OutlineFilter.writeWorked env t e ContentType.kContentTypeJavascript = true →
      ∃ x, (∀ y, Call.InsertElementBeforeCurrent y ∈
              (OutlineFilter.OutlineScript env t e content).drop t.length ↔ y = x) ∧
        x.tag = "script" ∧
        x.attributes =
          [⟨"src", (env.CreateOutputResource (t ++ [Call.IsRewritable e])
                     ContentType.kContentTypeJavascript).url, "\x27"⟩] ++ e.attributes) := by
  constructor
  · intro hm hw
    refine ⟨OutlineFilter.replacement env t e ContentType.kContentTypeCss content s_link_
        [⟨s_rel_, kStylesheet, kSingleQuote⟩,
         ⟨s_href_, (env.CreateOutputResource (t ++ [Call.IsRewritable e])
            ContentType.kContentTypeCss).url, kSingleQuote⟩], ?_, rfl, rfl⟩
    intro y
    rw [OutlineStyle_written env t e content hrw hm hw]
    simp only [OutlineFilter.writeCalls, List.append_assoc, List.drop_left]
    split <;> simp [FatalErrorHere]
  · intro hm hw
    refine ⟨OutlineFilter.replacement env t e ContentType.kContentTypeJavascript content
        s_script_
        [⟨s_src_, (env.CreateOutputResource (t ++ [Call.IsRewritable e])
            ContentType.kContentTypeJavascript).url, kSingleQuote⟩], ?_, rfl, rfl⟩
    intro y
    rw [OutlineScript_written env t e content hrw hm hw]
    simp only [OutlineFilter.writeCalls, List.append_assoc, List.drop_left]
    split <;> simp [FatalErrorHere]

/-- C7 witness: `<script type="text/javascript" defer="defer">` is replaced by a
script element with src first and then type and defer as they were. -/
theorem C7_witness_script_typed :
    demoEnv.IsRewritable [] scriptTyped = true ∧
    ∃ x, (∀ y, Call.InsertElementBeforeCurrent y ∈
            (OutlineFilter.OutlineScript demoEnv [] scriptTyped "f()").drop
              ([] : List Call).length ↔ y = x) ∧
      x.tag = "script" ∧
      x.attributes =
        [⟨"src", (demoEnv.CreateOutputResource ([] ++ [Call.IsRewritable scriptTyped])
                   ContentType.kContentTypeJavascript).url, "\x27"⟩] ++
          scriptTyped.attributes :=
  ⟨by decide,
   (C7_replacement_carries_over_all_attributes demoEnv [] scriptTyped "f()"
      (by decide)).2 (by decide) (by decide)⟩

/-- C8: if any of StartWrite, WriteChunk or EndWrite on the output resource
answers false, the Outline operation creates no replacement element, inserts
nothing and deletes nothing, whatever the element and the content; and when the
write was attempted (rewritable element of matching type) the trace ends with the
error message about the failed write. -/
theorem C8_failed_write_leaves_element_unmodified
    (env : Collaborators) (t : List Call) (e : HtmlElement) (content : String) :
    let failed := fun (ct : ContentType) =>
      (env.CreateOutputResource (t ++ [Call.IsRewritable e]) ct).StartWrite = false ∨
      (env.CreateOutputResource (t ++ [Call.IsRewritable e]) ct).WriteChunk = false ∨
      (env.CreateOutputResource (t ++ [Call.IsRewritable e]) ct).EndWrite = false
    (failed ContentType.kContentTypeCss →
      (∀ c ∈ (OutlineFilter.OutlineStyle env t e content).drop t.length,
        c.mutatesTree = false) ∧
      (env.IsRewritable t e = true →
        OutlineFilter.typeMatches (e.FirstAttributeWithName "type") "text/css" = true →
        OutlineFilter.OutlineStyle env t e content =
          t ++ OutlineFilter.writeCalls env t e ContentType.kContentTypeCss content ++
            [Call.Message MessageType.kError "Failed to write style resource." []])) ∧
    (failed ContentType.kContentTypeJavascript →
      (∀ c ∈ (OutlineFilter.OutlineScript env t e content).drop t.length,
        c.mutatesTree = false) ∧
      (env.IsRewritable t e = true →
        OutlineFilter.typeMatches (e.FirstAttributeWithName "type") "text/javascript"
          = true →
        OutlineFilter.OutlineScript env t e content =
          t ++ OutlineFilter.writeCalls env t e ContentType.kContentTypeJavascript content ++
            [Call.Message MessageType.kError "Failed to write script resource." []])) := by
  intro failed
  have hfail : ∀ ct, failed ct → OutlineFilter.writeWorked env t e ct = false := by
    intro ct h
    simp only [OutlineFilter.writeWorked]
    rcases h with h | h | h <;> simp [h]
  constructor
  · intro hf
    have hw := hfail _ hf
    constructor
    · intro c hc
      cases hrw : env.IsRewritable t e
      · rw [OutlineStyle_not_rewritable env t e _ hrw] at hc
        simp at hc
        rw [hc]; rfl
      · cases hm : OutlineFilter.typeMatches (e.FirstAttributeWithName s_type_) kTextCss
        · rw [OutlineStyle_mismatch env t e _ hrw hm] at hc
          simp [InfoHere] at hc
          rcases hc with hc | hc <;> (rw [hc]; rfl)
        · rw [OutlineStyle_write_failed env t e _ hrw hm hw] at hc
          simp [OutlineFilter.writeCalls, List.append_assoc, ErrorHere] at hc
          rcases hc with hc | hc | hc | hc | hc | hc <;> (rw [hc]; rfl)
    · intro hrw hm
      exact OutlineStyle_write_failed env t e _ hrw hm hw
  · intro hf
    have hw := hfail _ hf
    constructor
    · intro c hc
      cases hrw : env.IsRewritable t e
      · rw [OutlineScript_not_rewritable env t e _ hrw] at hc
        simp at hc
        rw [hc]; rfl
      · cases hm : OutlineFilter.typeMatches (e.FirstAttributeWithName s_type_)
          kTextJavascript
        · rw [OutlineScript_mismatch env t e _ hrw hm] at hc
          simp [InfoHere] at hc
          rcases hc with hc | hc <;> (rw [hc]; rfl)
        · rw [OutlineScript_write_failed env t e _ hrw hm hw] at hc
          simp [OutlineFilter.writeCalls, List.append_assoc, ErrorHere] at hc
          rcases hc with hc | hc | hc | hc | hc | hc <;> (rw [hc]; rfl)
    · intro hrw hm
      exact OutlineScript_write_failed env t e _ hrw hm hw

/-- C8 witness: WriteChunk fails on the resource created for
`<style media="print">`; the trace is the write attempt followed by the error
message. -/
theorem C8_witness_failed_chunk :
    (failingWriteEnv.CreateOutputResource ([] ++ [Call.IsRewritable styleMedia])
      ContentType.kContentTypeCss).WriteChunk = false ∧
    OutlineFilter.OutlineStyle failingWriteEnv [] styleMedia "a:b" =
      [] ++ OutlineFilter.writeCalls failingWriteEnv [] styleMedia
              ContentType.kContentTypeCss "a:b" ++
        [Call.Message MessageType.kError "Failed to write style resource." []] :=
  ⟨by decide,
   ((C8_failed_write_leaves_element_unmodified failingWriteEnv [] styleMedia "a:b").1
      (Or.inr (Or.inl (by decide)))).2 (by decide) (by decide)⟩

/-- C9 counterexample: the write succeeds but DeleteElement answers false; the
fatal error is reported and the replacement link is inserted all the same, while
the original style element has not been deleted. -/
theorem C9_counterexample_failed_delete_still_inserts :
    OutlineFilter.OutlineStyle failingDeleteEnv [] styleMedia "a:b" =
      [Call.IsRewritable styleMedia,
       Call.CreateOutputResource ContentType.kContentTypeCss
         ⟨true, true, true, true, "http://out/1"⟩,
       Call.StartWrite ⟨true, true, true, true, "http://out/1"⟩,
       Call.WriteChunk ⟨true, true, true, true, "http://out/1"⟩ "a:b",
       Call.EndWrite ⟨true, true, true, true, "http://out/1"⟩,
       Call.NewElement "link" 1005,
       Call.DeleteElement styleMedia false,
       Call.Message MessageType.kFatal "Failed to delete element" [],
       Call.InsertElementBeforeCurrent
         ⟨1005, "link",
          [⟨"rel", "stylesheet", "\x27"⟩, ⟨"href", "http://out/1", "\x27"⟩,
           ⟨"media", "print", "\""⟩]⟩] := by
  decide

/-- C9 (amended): for every outcome of the collaborators, when OutlineStyle or
OutlineScript returns, either no element has been created, inserted or deleted,
or the original element has been deleted and a replacement inserted, or
DeleteElement answered false and the fatal error "Failed to delete element" has
been reported. -/
theorem C9_outline_replaces_or_leaves_or_reports_fatal
    (env : Collaborators) (t : List Call) (e : HtmlElement) (content : String) :
    let outcome := fun (added : List Call) =>
      (∀ c ∈ added, c.mutatesTree = false) ∨
      (Call.DeleteElement e true ∈ added ∧
        ∃ x, Call.InsertElementBeforeCurrent x ∈ added) ∨
      (Call.DeleteElement e false ∈ added ∧
        Call.Message MessageType.kFatal "Failed to delete element" [] ∈ added)
    outcome ((OutlineFilter.OutlineStyle env t e content).drop t.length) ∧
    outcome ((OutlineFilter.OutlineScript env t e content).drop t.length) := by
  intro outcome
  constructor
  · cases hrw : env.IsRewritable t e
    · left
      intro c hc
      rw [OutlineStyle_not_rewritable env t e _ hrw] at hc
      simp at hc
      rw [hc]; rfl
    · cases hm : OutlineFilter.typeMatches (e.FirstAttributeWithName s_type_) kTextCss
      · left
        intro c hc
        rw [OutlineStyle_mismatch env t e _ hrw hm] at hc
        simp [InfoHere] at hc
        rcases hc with hc | hc <;> (rw [hc]; rfl)
      · cases hw : OutlineFilter.writeWorked env t e ContentType.kContentTypeCss
        · left
          intro c hc
          rw [OutlineStyle_write_failed env t e _ hrw hm hw] at hc
          simp [OutlineFilter.writeCalls, List.append_assoc, ErrorHere] at hc
          rcases hc with hc | hc | hc | hc | hc | hc <;> (rw [hc]; rfl)
        · right
          rw [OutlineStyle_written env t e _ hrw hm hw]
          simp only [List.append_assoc, List.drop_left]
          cases hd : OutlineFilter.deleteWorked env t e ContentType.kContentTypeCss
            content s_link_
          · right
            simp [FatalErrorHere]
          · left
            simp
  · cases hrw : env.IsRewritable t e
    · left
      intro c hc
      rw [OutlineScript_not_rewritable env t e _ hrw] at hc
      simp at hc
      rw [hc]; rfl
    · cases hm : OutlineFilter.typeMatches (e.FirstAttributeWithName s_type_)
        kTextJavascript
      · left
        intro c hc
        rw [OutlineScript_mismatch env t e _ hrw hm] at hc
        simp [InfoHere] at hc
        rcases hc with hc | hc <;> (rw [hc]; rfl)
      · cases hw : OutlineFilter.writeWorked env t e ContentType.kContentTypeJavascript
        · left
          intro c hc
          rw [OutlineScript_write_failed env t e _ hrw hm hw] at hc
          simp [OutlineFilter.writeCalls, List.append_assoc, ErrorHere] at hc
          rcases hc with hc | hc | hc | hc | hc | hc <;> (rw [hc]; rfl)
        · right
          rw [OutlineScript_written env t e _ hrw hm hw]
          simp only [List.append_assoc, List.drop_left]
          cases hd : OutlineFilter.deleteWorked env t e ContentType.kContentTypeJavascript
            content s_script_
          · right
            simp [FatalErrorHere]
          · left
            simp

/-- C10: Flush returns the filter to Idle with an empty buffer from every state
and calls no collaborator. Consequently, when no element at the address of e is
started between the flush and EndElement(e), that EndElement does not outline e:
it leaves the trace as it is, or adds one error message (when another element is
buffered by then), and never queries, writes, creates, inserts or deletes. -/
theorem C10_flush_returns_to_idle_and_prevents_outline
    (env : Collaborators) (f : OutlineFilter) (t : List Call) (e : HtmlElement)
    (mid : List Event)
    (hmid : ∀ x, Event.StartElement x ∈ mid → x.addr ≠ e.addr) :
    OutlineFilter.Flush f t = ({ f with inline_element_ := none, buffer_ := "" }, t) ∧
    (OutlineFilter.Flush f t).1.Idle ∧
    (let s := OutlineFilter.run env (OutlineFilter.Flush f t) mid
     let s1 := OutlineFilter.EndElement env s.1 s.2 e
     s1.2 = s.2 ∨ ∃ format args, s1.2 = s.2 ++ [Call.Message MessageType.kError format args]) := by
  refine ⟨rfl, ⟨rfl, rfl⟩, ?_⟩
  intro s s1
  have hs : s.1.inline_element_ ≠ some e.addr :=
    run_not_buffering_addr env e.addr mid (OutlineFilter.Flush f t) (by
      simp [OutlineFilter.Flush]) hmid
  cases hie : s.1.inline_element_ with
  | none =>
    left
    simp only [s1, OutlineFilter.EndElement, hie]
  | some a =>
    right
    have hne : e.addr ≠ a := by
      intro h
      apply hs
      rw [hie, h]
    refine ⟨"Tag \x27%s\x27 found inside style/script.", [Arg.str e.tag], ?_⟩
    simp only [s1, OutlineFilter.EndElement, hie]
    simp [hne, ErrorHere]

/-- C10 witness: `<style media="print">`, text, a flush, more text, then the end
of the style element: the trace stays empty. -/
theorem C10_witness_flush_inside_style :
    OutlineFilter.Flush ⟨some 2, "a:", true, true⟩ [] = (⟨none, "", true, true⟩, []) ∧
    ((OutlineFilter.EndElement demoEnv
        (OutlineFilter.run demoEnv (OutlineFilter.Flush ⟨some 2, "a:", true, true⟩ [])
          [Event.Characters "b"]).1
        (OutlineFilter.run demoEnv (OutlineFilter.Flush ⟨some 2, "a:", true, true⟩ [])
          [Event.Characters "b"]).2 styleMedia).2 =
      (OutlineFilter.run demoEnv (OutlineFilter.Flush ⟨some 2, "a:", true, true⟩ [])
          [Event.Characters "b"]).2 ∨
     ∃ format args,
      (OutlineFilter.EndElement demoEnv
        (OutlineFilter.run demoEnv (OutlineFilter.Flush ⟨some 2, "a:", true, true⟩ [])
          [Event.Characters "b"]).1
        (OutlineFilter.run demoEnv (OutlineFilter.Flush ⟨some 2, "a:", true, true⟩ [])
          [Event.Characters "b"]).2 styleMedia).2 =
      (OutlineFilter.run demoEnv (OutlineFilter.Flush ⟨some 2, "a:", true, true⟩ [])
          [Event.Characters "b"]).2 ++ [Call.Message MessageType.kError format args]) :=
  ⟨(C10_flush_returns_to_idle_and_prevents_outline demoEnv ⟨some 2, "a:", true, true⟩ []
      styleMedia [Event.Characters "b"] (by
        intro x hx
        simp at hx)).1,
   (C10_flush_returns_to_idle_and_prevents_outline demoEnv ⟨some 2, "a:", true, true⟩ []
      styleMedia [Event.Characters "b"] (by
        intro x hx
        simp at hx)).2.2⟩

/-- C11: in an event sequence that starts with StartDocument, in which no started
element has tag style and every started script element carries a src attribute,
the filter is Idle with an empty buffer after every event and the trace never
grows: no Outline operation, no message, no output resource and no tree
mutation, whatever the state before and the configuration. -/
theorem C11_outlined_document_is_left_alone
    (env : Collaborators) (f : OutlineFilter) (t : List Call) (events : List Event)
    (n : Nat)
    (hev : ∀ x, Event.StartElement x ∈ events →
      x.tag ≠ "style" ∧ (x.tag = "script" → ∃ a ∈ x.attributes, a.name = "src")) :
    let after := OutlineFilter.run env (f, t) ((Event.StartDocument :: events).take (n + 1))
    after.1.Idle ∧
    after.1.outline_styles_ = f.outline_styles_ ∧
    after.1.outline_scripts_ = f.outline_scripts_ ∧
    after.2 = t := by
  intro after
  have hafter : after = ({ f with inline_element_ := none, buffer_ := "" }, t) := by
    simp only [after, List.take_succ_cons, run_cons, OutlineFilter.handle,
      OutlineFilter.StartDocument]
    apply run_idle_of_no_qualifying_start env _ _ _ ⟨rfl, rfl⟩
    intro x hx
    have hmem := List.mem_of_mem_take hx
    exact qualifies_false_of_tag _ x (hev x hmem).1 (hev x hmem).2
  rw [hafter]
  exact ⟨⟨rfl, rfl⟩, rfl, rfl, rfl⟩

/-- C11 witness: the second pass over an outlined document (a link element and a
script element with src) leaves the trace empty. -/
theorem C11_witness_second_pass :
    (OutlineFilter.run demoEnv (OutlineFilter.new true true, [])
      ((Event.StartDocument ::
        [Event.StartElement ⟨8, "link", [⟨"rel", "stylesheet", "\x27"⟩]⟩,
         Event.EndElement ⟨8, "link", [⟨"rel", "stylesheet", "\x27"⟩]⟩,
         Event.StartElement ⟨9, "script", [⟨"src", "http://out/1", "\x27"⟩]⟩,
         Event.EndElement ⟨9, "script", [⟨"src", "http://out/1", "\x27"⟩]⟩]).take
        (4 + 1))).2 = [] :=
  (C11_outlined_document_is_left_alone demoEnv (OutlineFilter.new true true) []
    [Event.StartElement ⟨8, "link", [⟨"rel", "stylesheet", "\x27"⟩]⟩,
     Event.EndElement ⟨8, "link", [⟨"rel", "stylesheet", "\x27"⟩]⟩,
     Event.StartElement ⟨9, "script", [⟨"src", "http://out/1", "\x27"⟩]⟩,
     Event.EndElement ⟨9, "script", [⟨"src", "http://out/1", "\x27"⟩]⟩] 4
    (by
      intro x hx
      simp only [List.mem_cons, Event.StartElement.injEq, reduceCtorEq, false_or,
        or_false, List.mem_singleton, List.not_mem_nil] at hx
      rcases hx with hx | hx <;> (rw [hx]; decide))).2.2.2

/-- C16: an Idle filter with outline_styles enabled receives StartElement(s) for
a style element s, text events, then StartElement(d) for an element d that is
neither style nor script, then any events among which no style or script element
starts (in particular the end of d and the end of s).  The start of d logs the
nested-tag error, and that message is the whole trace to the very end: Outline
never runs, no output resource is created, nothing is inserted or deleted; the
filter ends Idle. -/
theorem C16_element_nested_in_style_blocks_outline
    (env : Collaborators) (f : OutlineFilter) (t : List Call) (s d : HtmlElement)
    (texts rest : List Event)
    (hidle : f.Idle) (hstyles : f.outline_styles_ = true) (hs : s.tag = "style")
    (htexts : ∀ ev ∈ texts, ev.isText = true)
    (hd : d.tag ≠ "style" ∧ d.tag ≠ "script")
    (hrest : ∀ x, Event.StartElement x ∈ rest → x.tag ≠ "style" ∧ x.tag ≠ "script") :
    OutlineFilter.run env (f, t) (Event.StartElement s :: texts ++ [Event.StartElement d]) =
      (f, t ++ [Call.Message MessageType.kError
                  "Tag \x27%s\x27 found inside style/script." [Arg.str d.tag]]) ∧
    OutlineFilter.run env (f, t)
        (Event.StartElement s :: texts ++ Event.StartElement d :: rest) =
      (f, t ++ [Call.Message MessageType.kError
                  "Tag \x27%s\x27 found inside style/script." [Arg.str d.tag]]) := by
  obtain ⟨ie, b, os, osc⟩ := f
  obtain ⟨h1, h2⟩ := hidle
  simp only at h1 h2 hstyles
  subst h1 h2 hstyles
  have hqs : OutlineFilter.qualifies ⟨none, "", true, osc⟩ s = true := by
    simp [OutlineFilter.qualifies, hs, s_style_, Intern]
  have hqd : OutlineFilter.qualifies ⟨none, "", true, osc⟩ d = false :=
    qualifies_false_of_tag _ d hd.1 (fun h => absurd h hd.2)
  have hupto : OutlineFilter.run env (⟨none, "", true, osc⟩, t)
      (Event.StartElement s :: texts ++ [Event.StartElement d]) =
      (⟨none, "", true, osc⟩,
       t ++ [Call.Message MessageType.kError
               "Tag \x27%s\x27 found inside style/script." [Arg.str d.tag]]) := by
    rw [List.cons_append, run_cons, run_append]
    simp only [OutlineFilter.handle]
    rw [StartElement_of_not_buffering _ _ _ rfl, hqs]
    simp only [if_true]
    rw [run_texts_buffering env texts htexts]
    simp only [run_cons, run_nil, OutlineFilter.handle]
    rw [StartElement_of_buffering _ _ _ s.addr rfl,
      StartElement_of_not_buffering _ _ _ rfl, hqd]
    simp [ErrorHere]
  refine ⟨hupto, ?_⟩
  have hsplit : Event.StartElement s :: texts ++ Event.StartElement d :: rest =
      (Event.StartElement s :: texts ++ [Event.StartElement d]) ++ rest := by
    simp
  rw [hsplit, run_append, hupto]
  apply run_idle_of_no_qualifying_start env _ _ _ ⟨rfl, rfl⟩
  intro x hx
  exact qualifies_false_of_tag _ x (hrest x hx).1 (fun h => absurd h (hrest x hx).2)

/-- C16 witness: `<style media="print">a<div>x</div></style>` logs the error for
the div and nothing else. -/
theorem C16_witness_div_nested_in_style :
    OutlineFilter.run demoEnv (OutlineFilter.new true false, [])
        (Event.StartElement styleMedia :: [Event.Characters "a"] ++
          Event.StartElement divElement ::
            [Event.Characters "x", Event.EndElement divElement,
             Event.EndElement styleMedia]) =
      (OutlineFilter.new true false,
       [] ++ [Call.Message MessageType.kError
                "Tag \x27%s\x27 found inside style/script." [Arg.str divElement.tag]]) :=
  (C16_element_nested_in_style_blocks_outline demoEnv (OutlineFilter.new true false) []
    styleMedia divElement [Event.Characters "a"]
    [Event.Characters "x", Event.EndElement divElement, Event.EndElement styleMedia]
    ⟨rfl, rfl⟩ rfl rfl (by decide) (by decide)
    (by
      intro x hx
      simp at hx)).2

/-- C19: while an element is buffered, each of Comment, Cdata, IEDirective and
EndElement of another element reports exactly one error, runs no Outline
operation and leaves the filter Idle with an empty buffer; delivered to an Idle
filter the same events change nothing and log nothing. -/
theorem C19_stray_markup_while_buffering_and_while_idle
    (env : Collaborators) (f g : OutlineFilter) (t : List Call) (a : Nat)
    (text : String) (x : HtmlElement)
    (hbuf : f.inline_element_ = some a) (hx : x.addr ≠ a) (hidle : g.Idle) :
    (OutlineFilter.Comment f t text =
      ({ f with inline_element_ := none, buffer_ := "" },
       t ++ [Call.Message MessageType.kError "Comment found inside style/script." []]) ∧
     OutlineFilter.Cdata f t text =
      ({ f with inline_element_ := none, buffer_ := "" },
       t ++ [Call.Message MessageType.kError "CDATA found inside style/script." []]) ∧
     OutlineFilter.IEDirective f t text =
      ({ f with inline_element_ := none, buffer_ := "" },
       t ++ [Call.Message MessageType.kError
               "IE Directive found inside style/script." []]) ∧
     OutlineFilter.EndElement env f t x =
      ({ f with inline_element_ := none, buffer_ := "" },
       t ++ [Call.Message MessageType.kError
               "Tag \x27%s\x27 found inside style/script." [Arg.str x.tag]])) ∧
    (OutlineFilter.Comment g t text = (g, t) ∧
     OutlineFilter.Cdata g t text = (g, t) ∧
     OutlineFilter.IEDirective g t text = (g, t) ∧
     OutlineFilter.EndElement env g t x = (g, t)) := by
  obtain ⟨ie, b, os, osc⟩ := f
  obtain ⟨ie2, b2, os2, osc2⟩ := g
  obtain ⟨h1, h2⟩ := hidle
  simp only at hbuf h1 h2
  subst hbuf h1 h2
  refine ⟨⟨?_, ?_, ?_, ?_⟩, ?_, ?_, ?_, ?_⟩
  · simp [OutlineFilter.Comment, ErrorHere]
  · simp [OutlineFilter.Cdata, ErrorHere]
  · simp [OutlineFilter.IEDirective, ErrorHere]
  · simp [OutlineFilter.EndElement, hx, ErrorHere]
  · simp [OutlineFilter.Comment]
  · simp [OutlineFilter.Cdata]
  · simp [OutlineFilter.IEDirective]
  · simp [OutlineFilter.EndElement]

/-- C19 witness: a comment arrives while `<script>` is buffered. -/
theorem C19_witness_comment_in_script :
    OutlineFilter.Comment ⟨some 3, "var a;", true, true⟩ [] "c" =
      (⟨none, "", true, true⟩,
       [] ++ [Call.Message MessageType.kError "Comment found inside style/script." []]) :=
  (C19_stray_markup_while_buffering_and_while_idle demoEnv
    ⟨some 3, "var a;", true, true⟩ (OutlineFilter.new true true) [] 3 "c" divElement
    rfl (by decide) ⟨rfl, rfl⟩).1.1

/-- C20 counterexample: in the successful outline of `<style media="print">` the
original element is deleted first and the replacement is inserted afterwards;
the insertion does not come first. -/
theorem C20_counterexample_delete_precedes_insert :
    OutlineFilter.OutlineStyle demoEnv [] styleMedia "a:b" =
      [Call.IsRewritable styleMedia,
       Call.CreateOutputResource ContentType.kContentTypeCss
         ⟨true, true, true, true, "http://out/1"⟩,
       Call.StartWrite ⟨true, true, true, true, "http://out/1"⟩,
       Call.WriteChunk ⟨true, true, true, true, "http://out/1"⟩ "a:b",
       Call.EndWrite ⟨true, true, true, true, "http://out/1"⟩,
       Call.NewElement "link" 1005,
       Call.DeleteElement styleMedia true,
       Call.InsertElementBeforeCurrent
         ⟨1005, "link",
          [⟨"rel", "stylesheet", "\x27"⟩, ⟨"href", "http://out/1", "\x27"⟩,
           ⟨"media", "print", "\""⟩]⟩] ∧
    ¬ ((OutlineFilter.OutlineStyle demoEnv [] styleMedia "a:b").indexOf
         (Call.InsertElementBeforeCurrent
           ⟨1005, "link",
            [⟨"rel", "stylesheet", "\x27"⟩, ⟨"href", "http://out/1", "\x27"⟩,
             ⟨"media", "print", "\""⟩]⟩) <
       (OutlineFilter.OutlineStyle demoEnv [] styleMedia "a:b").indexOf
         (Call.DeleteElement styleMedia true)) := by
  decide

/-- C20 (amended): on a successful outline (rewritable element, matching type,
write worked) the tree operations are issued in this order: the original element
is deleted first, and the replacement is inserted (before the current position of
the parser) last; no insertion precedes the deletion, and when the deletion
worked the insertion follows it immediately. -/
theorem C20_outline_deletes_then_inserts
    (env : Collaborators) (t : List Call) (e : HtmlElement) (content : String)
    (hrw : env.IsRewritable t e = true) :
    (OutlineFilter.typeMatches (e.FirstAttributeWithName "type") "text/css" = true →
      OutlineFilter.writeWorked env t e ContentType.kContentTypeCss = true →
      ∃ before between x d,
        (OutlineFilter.OutlineStyle env t e content).drop t.length =
          before ++ Call.DeleteElement e d :: between ++
            [Call.InsertElementBeforeCurrent x] ∧
        (∀ c ∈ before ++ between,
          (∀ y, c ≠ Call.InsertElementBeforeCurrent y) ∧ ∀ y b, c ≠ Call.DeleteElement y b) ∧
        (d = true → between = [])) ∧
    (OutlineFilter.typeMatches (e.FirstAttributeWithName "type") "text/javascript" = true →
      OutlineFilter.writeWorked env t e ContentType.kContentTypeJavascript = true →
      ∃ before between x d,
        (OutlineFilter.OutlineScript env t e content).drop t.length =
          before ++ Call.DeleteElement e d :: between ++
            [Call.InsertElementBeforeCurrent x] ∧
        (∀ c ∈ before ++ between,
          (∀ y, c ≠ Call.InsertElementBeforeCurrent y) ∧ ∀ y b, c ≠ Call.DeleteElement y b) ∧
        (d = true → between = [])) := by
  constructor
  · intro hm hw
    refine ⟨OutlineFilter.writeCalls env t e ContentType.kContentTypeCss content ++
        [Call.NewElement s_link_
          (OutlineFilter.replacement env t e ContentType.kContentTypeCss content s_link_
            []).addr],
      (if OutlineFilter.deleteWorked env t e ContentType.kContentTypeCss content s_link_
        then [] else [FatalErrorHere "Failed to delete element" []]),
      OutlineFilter.replacement env t e ContentType.kContentTypeCss content s_link_
        [⟨s_rel_, kStylesheet, kSingleQuote⟩,
         ⟨s_href_, (env.CreateOutputResource (t ++ [Call.IsRewritable e])
            ContentType.kContentTypeCss).url, kSingleQuote⟩],
      OutlineFilter.deleteWorked env t e ContentType.kContentTypeCss content s_link_,
      ?_, ?_, ?_⟩
    · rw [OutlineStyle_written env t e content hrw hm hw]
      simp [List.append_assoc]
    · intro c hc
      simp only [OutlineFilter.writeCalls, List.append_assoc, List.cons_append,
        List.nil_append, List.mem_append, List.mem_cons] at hc
      rcases hc with hc | hc | hc | hc | hc | hc | hc
      · subst hc; simp
      · subst hc; simp
      · subst hc; simp
      · subst hc; simp
      · subst hc; simp
      · subst hc; simp
      · split at hc
        · simp at hc
        · simp only [List.mem_singleton] at hc
          subst hc; simp [FatalErrorHere]
    · intro hd
      simp [hd]
  · intro hm hw
    refine ⟨OutlineFilter.writeCalls env t e ContentType.kContentTypeJavascript content ++
        [Call.NewElement s_script_
          (OutlineFilter.replacement env t e ContentType.kContentTypeJavascript content
            s_script_ []).addr],
      (if OutlineFilter.deleteWorked env t e ContentType.kContentTypeJavascript content
          s_script_
        then [] else [FatalErrorHere "Failed to delete element" []]),
      OutlineFilter.replacement env t e ContentType.kContentTypeJavascript content
        s_script_
        [⟨s_src_, (env.CreateOutputResource (t ++ [Call.IsRewritable e])
            ContentType.kContentTypeJavascript).url, kSingleQuote⟩],
      OutlineFilter.deleteWorked env t e ContentType.kContentTypeJavascript content
          s_script_,
      ?_, ?_, ?_⟩
    · rw [OutlineScript_written env t e content hrw hm hw]
      simp [List.append_assoc]
    · intro c hc
      simp only [OutlineFilter.writeCalls, List.append_assoc, List.cons_append,
        List.nil_append, List.mem_append, List.mem_cons] at hc
      rcases hc with hc | hc | hc | hc | hc | hc | hc
      · subst hc; simp
      · subst hc; simp
      · subst hc; simp
      · subst hc; simp
      · subst hc; simp
      · subst hc; simp
      · split at hc
        · simp at hc
        · simp only [List.mem_singleton] at hc
          subst hc; simp [FatalErrorHere]
    · intro hd
      simp [hd]

/-- C20 witness: `<script type="text/javascript" defer="defer">` is outlined;
DeleteElement comes before InsertElementBeforeCurrent. -/
theorem C20_witness_script_typed :
    demoEnv.IsRewritable [] scriptTyped = true ∧
    ∃ before between x d,
      (OutlineFilter.OutlineScript demoEnv [] scriptTyped "f()").drop
          ([] : List Call).length =
        before ++ Call.DeleteElement scriptTyped d :: between ++
          [Call.InsertElementBeforeCurrent x] ∧
      (∀ c ∈ before ++ between,
        (∀ y, c ≠ Call.InsertElementBeforeCurrent y) ∧ ∀ y b, c ≠ Call.DeleteElement y b) ∧
      (d = true → between = []) :=
  ⟨by decide,
   (C20_outline_deletes_then_inserts demoEnv [] scriptTyped "f()" (by decide)).2
     (by decide) (by decide)⟩

/-- C12: for an image element whose bytes cannot be obtained (CreateInputResource
yields NULL, or Read answers false, or Read answers true and ContentsValid
false) EndElement ends with one warning; it runs no optimizer, requests no output
resource and yields the src attribute as it was. -/
theorem C12_unusable_image_bytes_only_warn
    (env : Collaborators) (img : ImgCollaborators) (t : List Call)
    (element : HtmlElement) (src : Attribute)
    (hsrc : img.ParseImgElement element = some src) :
    let found := t ++ [Call.Message MessageType.kInfo "Found image: %s"
                         [Arg.str img.filename, Arg.element element]]
    (img.CreateInputResource found src.value = none →
      ImgRewriteFilter.EndElement env img t element =
        (some src,
         found ++ [Call.CreateInputResource src.value none,
                   Call.Message MessageType.kWarning "Img contents weren\x27t loaded"
                     [Arg.str src.value]])) ∧
    (∀ r, img.CreateInputResource found src.value = some r → r.Read = false →
      ImgRewriteFilter.EndElement env img t element =
        (some src,
         found ++ [Call.CreateInputResource src.value (some r), Call.Read r,
                   Call.Message MessageType.kWarning "Img contents weren\x27t loaded"
                     [Arg.str src.value]])) ∧
    (∀ r, img.CreateInputResource found src.value = some r → r.Read = true →
      r.ContentsValid = false →
      ImgRewriteFilter.EndElement env img t element =
        (some src,
         found ++ [Call.CreateInputResource src.value (some r), Call.Read r,
                   Call.Message MessageType.kWarning "Img contents are invalid."
                     [Arg.str r.url]])) := by
  intro found
  refine ⟨?_, ?_, ?_⟩
  · intro hnone
    simp only [found, Info] at hnone
    simp [ImgRewriteFilter.EndElement, hsrc, Info, Warning, hnone, found]
  · intro r hr hread
    simp only [found, Info] at hr
    simp [ImgRewriteFilter.EndElement, hsrc, Info, Warning, hr, hread, found]
  · intro r hr hread hvalid
    simp only [found, Info] at hr
    simp [ImgRewriteFilter.EndElement, hsrc, Info, Warning, hr, hread, hvalid, found]

/-- C12 witness: `<img src="a.jpg">` when the ResourceManager yields no input
resource. -/
theorem C12_witness_no_input_resource :
    noInputImg.ParseImgElement imgJpeg = some ⟨"src", "a.jpg", "\""⟩ ∧
    ImgRewriteFilter.EndElement demoEnv noInputImg [] imgJpeg =
      (some ⟨"src", "a.jpg", "\""⟩,
       ([] ++ [Call.Message MessageType.kInfo "Found image: %s"
                 [Arg.str noInputImg.filename, Arg.element imgJpeg]]) ++
         [Call.CreateInputResource (Attribute.mk "src" "a.jpg" "\"").value none,
          Call.Message MessageType.kWarning "Img contents weren\x27t loaded"
            [Arg.str (Attribute.mk "src" "a.jpg" "\"").value]]) :=
  ⟨by decide,
   (C12_unusable_image_bytes_only_warn demoEnv noInputImg [] imgJpeg
      ⟨"src", "a.jpg", "\""⟩ (by decide)).1 (by decide)⟩

/-- C13: for a resource classified JPEG (resp. PNG) OptimizeImgResource runs the
JPEG recompressor (resp. the PNG optimizer with the default PngReader) on the
contents of the resource.  When the optimizer fails, that run is the only call
and the src attribute is unchanged.  When it succeeds, Write-and-Rewrite follows
with content type JPEG (resp. PNG) and the optimizer's output: after the
optimizer run the trace holds the generation of one output resource of that type
and StartWrite on it; when StartWrite answers true the next call is WriteChunk
with exactly the optimizer's output, and no other chunk is written and no other
resource generated; the src attribute becomes the url of that resource exactly
when the three write steps and IsReadable answer true. -/
theorem C13_jpeg_and_png_dispatch
    (env : Collaborators) (img : ImgCollaborators) (t : List Call)
    (src : Attribute) (r : InputResource) :
    (r.image_type = ImageType.IMAGE_JPEG →
      (img.OptimizeJpeg r.contents = none →
        ImgRewriteFilter.OptimizeImgResource env img t src r =
          (src, t ++ [Call.OptimizeJpeg r.contents none])) ∧
      (∀ out, img.OptimizeJpeg r.contents = some out →
        ImgRewriteFilter.OptimizeImgResource env img t src r =
          ImgRewriteFilter.WriteBytesWithExtension env
            (t ++ [Call.OptimizeJpeg r.contents (some out)])
            ContentType.kContentTypeJpeg out src ∧
        (∀ c ∈ (ImgRewriteFilter.OptimizeImgResource env img t src r).2.drop t.length,
          (∀ o content, c = Call.WriteChunk o content → content = out) ∧
          (∀ ct o, c = Call.GenerateOutputResource ct o →
            ct = ContentType.kContentTypeJpeg) ∧
          (∀ ct o, c ≠ Call.CreateOutputResource ct o)) ∧
        (∃ rest,
          (ImgRewriteFilter.OptimizeImgResource env img t src r).2 =
            t ++ [Call.OptimizeJpeg r.contents (some out),
                  Call.GenerateOutputResource ContentType.kContentTypeJpeg
                    (env.GenerateOutputResource
                (t ++ [Call.OptimizeJpeg r.contents (some out)])
                ContentType.kContentTypeJpeg),
                  Call.StartWrite
                    (env.GenerateOutputResource
                (t ++ [Call.OptimizeJpeg r.contents (some out)])
                ContentType.kContentTypeJpeg)] ++ rest ∧
          ((env.GenerateOutputResource
                (t ++ [Call.OptimizeJpeg r.contents (some out)])
                ContentType.kContentTypeJpeg).StartWrite = true →
            ∃ rest2,
              rest = Call.WriteChunk
                  (env.GenerateOutputResource
                (t ++ [Call.OptimizeJpeg r.contents (some out)])
                ContentType.kContentTypeJpeg) out :: rest2 ∧
              ∀ c ∈ rest2, (∀ o x, c ≠ Call.WriteChunk o x) ∧
                ∀ ct o, c ≠ Call.GenerateOutputResource ct o) ∧
          ((env.GenerateOutputResource
                (t ++ [Call.OptimizeJpeg r.contents (some out)])
                ContentType.kContentTypeJpeg).StartWrite = false → rest = [])) ∧
        (ImgRewriteFilter.OptimizeImgResource env img t src r).1 =
          (if ((env.GenerateOutputResource
                (t ++ [Call.OptimizeJpeg r.contents (some out)])
                ContentType.kContentTypeJpeg).StartWrite &&
               (env.GenerateOutputResource
                (t ++ [Call.OptimizeJpeg r.contents (some out)])
                ContentType.kContentTypeJpeg).WriteChunk &&
               (env.GenerateOutputResource
                (t ++ [Call.OptimizeJpeg r.contents (some out)])
                ContentType.kContentTypeJpeg).EndWrite &&
               (env.GenerateOutputResource
                (t ++ [Call.OptimizeJpeg r.contents (some out)])
                ContentType.kContentTypeJpeg).IsReadable) = true
           then { src with value := (env.GenerateOutputResource
                (t ++ [Call.OptimizeJpeg r.contents (some out)])
                ContentType.kContentTypeJpeg).url }
           else src))) ∧
    (r.image_type = ImageType.IMAGE_PNG →
      (img.OptimizePng PngReaderInterface.PngReader r.contents = none →
        ImgRewriteFilter.OptimizeImgResource env img t src r =
          (src, t ++ [Call.OptimizePng PngReaderInterface.PngReader r.contents none])) ∧
      (∀ out, img.OptimizePng PngReaderInterface.PngReader r.contents = some out →
        ImgRewriteFilter.OptimizeImgResource env img t src r =
          ImgRewriteFilter.WriteBytesWithExtension env
            (t ++ [Call.OptimizePng PngReaderInterface.PngReader r.contents (some out)])
            ContentType.kContentTypePng out src ∧
        (∀ c ∈ (ImgRewriteFilter.OptimizeImgResource env img t src r).2.drop t.length,
          (∀ o content, c = Call.WriteChunk o content → content = out) ∧
          (∀ ct o, c = Call.GenerateOutputResource ct o →
            ct = ContentType.kContentTypePng) ∧
          (∀ ct o, c ≠ Call.CreateOutputResource ct o)) ∧
        (∃ rest,
          (ImgRewriteFilter.OptimizeImgResource env img t src r).2 =
            t ++ [Call.OptimizePng PngReaderInterface.PngReader r.contents (some out),
                  Call.GenerateOutputResource ContentType.kContentTypePng
                    (env.GenerateOutputResource
                (t ++ [Call.OptimizePng PngReaderInterface.PngReader r.contents (some out)])
                ContentType.kContentTypePng),
                  Call.StartWrite
                    (env.GenerateOutputResource
                (t ++ [Call.OptimizePng PngReaderInterface.PngReader r.contents (some out)])
                ContentType.kContentTypePng)] ++ rest ∧
          ((env.GenerateOutputResource
                (t ++ [Call.OptimizePng PngReaderInterface.PngReader r.contents (some out)])
                ContentType.kContentTypePng).StartWrite = true →
            ∃ rest2,
              rest = Call.WriteChunk
                  (env.GenerateOutputResource
                (t ++ [Call.OptimizePng PngReaderInterface.PngReader r.contents (some out)])
                ContentType.kContentTypePng) out :: rest2 ∧
              ∀ c ∈ rest2, (∀ o x, c ≠ Call.WriteChunk o x) ∧
                ∀ ct o, c ≠ Call.GenerateOutputResource ct o) ∧
          ((env.GenerateOutputResource
                (t ++ [Call.OptimizePng PngReaderInterface.PngReader r.contents (some out)])
                ContentType.kContentTypePng).StartWrite = false → rest = [])) ∧
        (ImgRewriteFilter.OptimizeImgResource env img t src r).1 =
          (if ((env.GenerateOutputResource
                (t ++ [Call.OptimizePng PngReaderInterface.PngReader r.contents (some out)])
                ContentType.kContentTypePng).StartWrite &&
               (env.GenerateOutputResource
                (t ++ [Call.OptimizePng PngReaderInterface.PngReader r.contents (some out)])
                ContentType.kContentTypePng).WriteChunk &&
               (env.GenerateOutputResource
                (t ++ [Call.OptimizePng PngReaderInterface.PngReader r.contents (some out)])
                ContentType.kContentTypePng).EndWrite &&
               (env.GenerateOutputResource
                (t ++ [Call.OptimizePng PngReaderInterface.PngReader r.contents (some out)])
                ContentType.kContentTypePng).IsReadable) = true
           then { src with value := (env.GenerateOutputResource
                (t ++ [Call.OptimizePng PngReaderInterface.PngReader r.contents (some out)])
                ContentType.kContentTypePng).url }
           else src))) := by
  constructor
  · intro htype
    constructor
    · intro hnone
      simp [ImgRewriteFilter.OptimizeImgResource, htype, ImgRewriteFilter.OptimizeJpeg,
        hnone]
    · intro out hout
      have heq : ImgRewriteFilter.OptimizeImgResource env img t src r =
          ImgRewriteFilter.WriteBytesWithExtension env
            (t ++ [Call.OptimizeJpeg r.contents (some out)])
            ContentType.kContentTypeJpeg out src := by
        simp [ImgRewriteFilter.OptimizeImgResource, htype, ImgRewriteFilter.OptimizeJpeg,
          hout]
      refine ⟨heq, ?_, ?_, ?_⟩
      · intro c hc
        rw [heq, WriteBytesWithExtension_snd, List.append_assoc, List.drop_left] at hc
        simp only [List.singleton_append, List.mem_cons] at hc
        rcases hc with hc | hc
        · subst hc
          simp
        · rcases mem_writeCalls _ _ _ _ _ c hc with h | h | h | h | h | h <;>
            (subst h; simp)
      · obtain ⟨rest, hshape, hopen, hclosed⟩ := writeCalls_shape env
          (t ++ [Call.OptimizeJpeg r.contents (some out)])
          ContentType.kContentTypeJpeg out src
        refine ⟨rest, ?_, hopen, hclosed⟩
        rw [heq, WriteBytesWithExtension_snd, hshape]
        simp
      · rw [heq, WriteBytesWithExtension_fst]
  · intro htype
    constructor
    · intro hnone
      simp [ImgRewriteFilter.OptimizeImgResource, htype, ImgRewriteFilter.OptimizePng,
        hnone]
    · intro out hout
      have heq : ImgRewriteFilter.OptimizeImgResource env img t src r =
          ImgRewriteFilter.WriteBytesWithExtension env
            (t ++ [Call.OptimizePng PngReaderInterface.PngReader r.contents (some out)])
            ContentType.kContentTypePng out src := by
        simp [ImgRewriteFilter.OptimizeImgResource, htype, ImgRewriteFilter.OptimizePng,
          hout]
      refine ⟨heq, ?_, ?_, ?_⟩
      · intro c hc
        rw [heq, WriteBytesWithExtension_snd, List.append_assoc, List.drop_left] at hc
        simp only [List.singleton_append, List.mem_cons] at hc
        rcases hc with hc | hc
        · subst hc
          simp
        · rcases mem_writeCalls _ _ _ _ _ c hc with h | h | h | h | h | h <;>
            (subst h; simp)
      · obtain ⟨rest, hshape, hopen, hclosed⟩ := writeCalls_shape env
          (t ++ [Call.OptimizePng PngReaderInterface.PngReader r.contents (some out)])
          ContentType.kContentTypePng out src
        refine ⟨rest, ?_, hopen, hclosed⟩
        rw [heq, WriteBytesWithExtension_snd, hshape]
        simp
      · rw [heq, WriteBytesWithExtension_fst]

/-- C13 witness: a JPEG resource whose recompression succeeds is written as a
JPEG output resource, the recompressed bytes being the chunk written, and the
src attribute is remapped to its url. -/
theorem C13_witness_jpeg_recompressed :
    (InputResource.mk true true ImageType.IMAGE_JPEG "JFIF" "a.jpg").image_type =
      ImageType.IMAGE_JPEG ∧
    ImgRewriteFilter.OptimizeImgResource demoEnv jpegImg [] ⟨"src", "a.jpg", "\""⟩
        ⟨true, true, ImageType.IMAGE_JPEG, "JFIF", "a.jpg"⟩ =
      ImgRewriteFilter.WriteBytesWithExtension demoEnv
        ([] ++ [Call.OptimizeJpeg
                  (InputResource.mk true true ImageType.IMAGE_JPEG "JFIF" "a.jpg").contents
                  (some "jfif")])
        ContentType.kContentTypeJpeg "jfif" ⟨"src", "a.jpg", "\""⟩ ∧
    (ImgRewriteFilter.OptimizeImgResource demoEnv jpegImg [] ⟨"src", "a.jpg", "\""⟩
        ⟨true, true, ImageType.IMAGE_JPEG, "JFIF", "a.jpg"⟩).1 =
      ⟨"src", "http://out/2", "\""⟩ ∧
    ImgRewriteFilter.OptimizeImgResource demoEnv jpegImg [] ⟨"src", "a.jpg", "\""⟩
        ⟨true, true, ImageType.IMAGE_JPEG, "JFIF", "a.jpg"⟩ =
      (⟨"src", "http://out/2", "\""⟩,
       [Call.OptimizeJpeg "JFIF" (some "jfif"),
        Call.GenerateOutputResource ContentType.kContentTypeJpeg
          ⟨true, true, true, true, "http://out/2"⟩,
        Call.StartWrite ⟨true, true, true, true, "http://out/2"⟩,
        Call.WriteChunk ⟨true, true, true, true, "http://out/2"⟩ "jfif",
        Call.EndWrite ⟨true, true, true, true, "http://out/2"⟩,
        Call.IsReadable ⟨true, true, true, true, "http://out/2"⟩,
        Call.Message MessageType.kInfo "Remapped to %s"
          [Arg.str "a.jpg", Arg.str "http://out/2"]]) :=
  ⟨rfl,
   (((C13_jpeg_and_png_dispatch demoEnv jpegImg [] ⟨"src", "a.jpg", "\""⟩
        ⟨true, true, ImageType.IMAGE_JPEG, "JFIF", "a.jpg"⟩).1 rfl).2 "jfif" rfl).1,
   by decide,
   by decide⟩

/-- C14 counterexample: for a valid resource classified GIF, OptimizeImgResource
makes no call at all: no informational message is logged. -/
theorem C14_counterexample_gif_logs_nothing :
    ImgRewriteFilter.OptimizeImgResource demoEnv demoImg [] ⟨"src", "b.gif", "\""⟩
        ⟨true, true, ImageType.IMAGE_GIF, "GIF89a", "b.gif"⟩ =
      (⟨"src", "b.gif", "\""⟩, []) ∧
    ¬ ∃ c ∈ (ImgRewriteFilter.OptimizeImgResource demoEnv demoImg []
              ⟨"src", "b.gif", "\""⟩
              ⟨true, true, ImageType.IMAGE_GIF, "GIF89a", "b.gif"⟩).2,
        ∃ format args, c = Call.Message MessageType.kInfo format args := by
  refine ⟨by decide, ?_⟩
  rintro ⟨c, hc, _⟩
  have hnil : (ImgRewriteFilter.OptimizeImgResource demoEnv demoImg []
      ⟨"src", "b.gif", "\""⟩
      ⟨true, true, ImageType.IMAGE_GIF, "GIF89a", "b.gif"⟩).2 = [] := by decide
  rw [hnil] at hc
  simp at hc

/-- C14 (amended): for a resource of unknown classification OptimizeImgResource
logs one informational message and leaves the src attribute unmodified; for a
resource classified GIF (the GIF reader being compiled out) it leaves the src
attribute unmodified and makes no call, so nothing is logged. -/
theorem C14_unknown_logs_info_and_gif_is_skipped
    (env : Collaborators) (img : ImgCollaborators) (t : List Call)
    (src : Attribute) (r : InputResource) :
    (r.image_type = ImageType.IMAGE_UNKNOWN →
      ImgRewriteFilter.OptimizeImgResource env img t src r =
        (src, t ++ [Call.Message MessageType.kInfo "Can\x27t recognize image format"
                      [Arg.str r.url]])) ∧
    (r.image_type = ImageType.IMAGE_GIF →
      ImgRewriteFilter.OptimizeImgResource env img t src r = (src, t)) := by
  constructor
  · intro htype
    simp [ImgRewriteFilter.OptimizeImgResource, htype, Info]
  · intro htype
    simp [ImgRewriteFilter.OptimizeImgResource, htype,
      ImgRewriteFilter.PAGESPEED_PNG_OPTIMIZER_GIF_READER]

/-- C14 witness: a resource of unknown classification. -/
theorem C14_witness_unknown_format :
    ImgRewriteFilter.OptimizeImgResource demoEnv demoImg [] ⟨"src", "c.bin", "\""⟩
        ⟨true, true, ImageType.IMAGE_UNKNOWN, "??", "c.bin"⟩ =
      (⟨"src", "c.bin", "\""⟩,
       [] ++ [Call.Message MessageType.kInfo "Can\x27t recognize image format"
                [Arg.str (InputResource.mk true true ImageType.IMAGE_UNKNOWN "??"
                            "c.bin").url]]) :=
  (C14_unknown_logs_info_and_gif_is_skipped demoEnv demoImg [] ⟨"src", "c.bin", "\""⟩
    ⟨true, true, ImageType.IMAGE_UNKNOWN, "??", "c.bin"⟩).1 rfl

/-- C15: with PAGESPEED_PNG_OPTIMIZER_GIF_READER defined as 0, for an img element
whose input resource is classified GIF, whatever Read and ContentsValid answer,
EndElement runs no optimizer, requests no output resource and yields the src
attribute as it was. -/
theorem C15_gif_image_is_left_unchanged
    (env : Collaborators) (img : ImgCollaborators) (t : List Call)
    (element : HtmlElement) (src : Attribute) (r : InputResource)
    (hsrc : img.ParseImgElement element = some src)
    (hres : img.CreateInputResource
      (t ++ [Call.Message MessageType.kInfo "Found image: %s"
               [Arg.str img.filename, Arg.element element]]) src.value = some r)
    (hgif : r.image_type = ImageType.IMAGE_GIF) :
    ImgRewriteFilter.PAGESPEED_PNG_OPTIMIZER_GIF_READER = 0 ∧
    (ImgRewriteFilter.EndElement env img t element).1 = some src ∧
    ∀ c ∈ (ImgRewriteFilter.EndElement env img t element).2.drop t.length,
      c.isOptimizer = false ∧ c.createsResource = false := by
  refine ⟨rfl, ?_, ?_⟩
  · simp only [ImgRewriteFilter.EndElement, hsrc, Info, hres]
    cases r.Read <;> cases r.ContentsValid <;>
      simp [ImgRewriteFilter.OptimizeImgResource, hgif,
        ImgRewriteFilter.PAGESPEED_PNG_OPTIMIZER_GIF_READER]
  · simp only [ImgRewriteFilter.EndElement, hsrc, Info, hres]
    cases r.Read <;> cases r.ContentsValid <;>
      simp [ImgRewriteFilter.OptimizeImgResource, hgif,
        ImgRewriteFilter.PAGESPEED_PNG_OPTIMIZER_GIF_READER, Warning,
        List.append_assoc, Call.isOptimizer, Call.createsResource]

/-- C15 witness: `<img src="b.gif">`. -/
theorem C15_witness_img_b_gif :
    demoImg.ParseImgElement imgGif = some ⟨"src", "b.gif", "\""⟩ ∧
    (ImgRewriteFilter.EndElement demoEnv demoImg [] imgGif).1 =
      some ⟨"src", "b.gif", "\""⟩ ∧
    ∀ c ∈ (ImgRewriteFilter.EndElement demoEnv demoImg [] imgGif).2.drop
            ([] : List Call).length,
      c.isOptimizer = false ∧ c.createsResource = false :=
  ⟨by decide,
   (C15_gif_image_is_left_unchanged demoEnv demoImg [] imgGif ⟨"src", "b.gif", "\""⟩
      ⟨true, true, ImageType.IMAGE_GIF, "GIF89a", "b.gif"⟩ (by decide) (by decide)
      rfl).2⟩

/-- C18: for a url that has an entry in the HTTP cache, StreamingFetchUrl returns
true, hands the cached response headers and the cached body to the caller, and
invokes neither the synchronous nor the asynchronous transport; the cache is
left as it was. -/
theorem C18_cache_hit_is_served_without_transport
    (f : CacheUrlFetcher) (url : String) (request_headers headers : MetaData)
    (body : String)
    (hhit : f.http_cache_.lookup url = some (headers, body)) :
    (f.StreamingFetchUrl url request_headers).returned = true ∧
    (f.StreamingFetchUrl url request_headers).fetched_content = body ∧
    (f.StreamingFetchUrl url request_headers).response_headers = headers ∧
    (f.StreamingFetchUrl url request_headers).transports = [] ∧
    (f.StreamingFetchUrl url request_headers).http_cache = f.http_cache_ := by
  simp [CacheUrlFetcher.StreamingFetchUrl, hhit]

/-- C18 witness: a fetcher composed with an asynchronous transport serves the
cached `http://a/x.css` at once. -/
theorem C18_witness_cached_stylesheet :
    demoCache.lookup "http://a/x.css" = some ([("Content-Type", "text/css")], "a:b") ∧
    ((CacheUrlFetcher.ofAsync demoCache (fun _ _ => none)).StreamingFetchUrl
        "http://a/x.css" []).returned = true ∧
    ((CacheUrlFetcher.ofAsync demoCache (fun _ _ => none)).StreamingFetchUrl
        "http://a/x.css" []).fetched_content = "a:b" ∧
    ((CacheUrlFetcher.ofAsync demoCache (fun _ _ => none)).StreamingFetchUrl
        "http://a/x.css" []).transports = [] :=
  ⟨by decide,
   (C18_cache_hit_is_served_without_transport
      (CacheUrlFetcher.ofAsync demoCache (fun _ _ => none)) "http://a/x.css" []
      [("Content-Type", "text/css")] "a:b" (by decide)).1,
   (C18_cache_hit_is_served_without_transport
      (CacheUrlFetcher.ofAsync demoCache (fun _ _ => none)) "http://a/x.css" []
      [("Content-Type", "text/css")] "a:b" (by decide)).2.1,
   (C18_cache_hit_is_served_without_transport
      (CacheUrlFetcher.ofAsync demoCache (fun _ _ => none)) "http://a/x.css" []
      [("Content-Type", "text/css")] "a:b" (by decide)).2.2.2.1⟩

/-- C21: the state invariant of the OutlineFilter.  A freshly constructed filter
satisfies it, every handler preserves it, and so after any sequence of events
delivered to a fresh filter, or to a filter in any state once StartDocument has
been delivered, an Idle filter (inline_element_ NULL) has an empty buffer.  Text
events delivered while no element is buffered leave the buffer as it is. -/
theorem C21_idle_filter_has_empty_buffer
    (env : Collaborators) (outline_styles outline_scripts : Bool) (f : OutlineFilter)
    (t : List Call) (events : List Event) (s : OutlineFilter × List Call) (ev : Event)
    (text : String) :
    ((OutlineFilter.run env (OutlineFilter.new outline_styles outline_scripts, t)
        events).1.inline_element_ = none →
      (OutlineFilter.run env (OutlineFilter.new outline_styles outline_scripts, t)
        events).1.buffer_ = "") ∧
    ((OutlineFilter.run env (f, t) (Event.StartDocument :: events)).1.inline_element_
        = none →
      (OutlineFilter.run env (f, t) (Event.StartDocument :: events)).1.buffer_ = "") ∧
    ((s.1.inline_element_ = none → s.1.buffer_ = "") →
      (OutlineFilter.handle env s ev).1.inline_element_ = none →
      (OutlineFilter.handle env s ev).1.buffer_ = "") ∧
    (s.1.inline_element_ = none →
      (OutlineFilter.Characters s.1 s.2 text).1.buffer_ = s.1.buffer_ ∧
      (OutlineFilter.IgnorableWhitespace s.1 s.2 text).1.buffer_ = s.1.buffer_) := by
  refine ⟨?_, ?_, ?_, ?_⟩
  · exact run_bufferInvariant env events _ (fun _ => rfl)
  · rw [run_cons]
    exact run_bufferInvariant env events _ (fun _ => rfl)
  · intro hinv
    exact handle_bufferInvariant env s ev hinv
  · intro hnone
    simp [OutlineFilter.Characters, OutlineFilter.IgnorableWhitespace, hnone]

/-- C22: for an element that HtmlParse::IsRewritable rejects, OutlineStyle and
OutlineScript make no call beyond that query: no message of any level, no output
resource, no new element, no deletion and no insertion, whatever the attributes
of the element, the content and the answers the other collaborators would have
given. -/
theorem C22_not_rewritable_element_is_untouched
    (env : Collaborators) (t : List Call) (e : HtmlElement) (content : String)
    (hrw : env.IsRewritable t e = false) :
    OutlineFilter.OutlineStyle env t e content = t ++ [Call.IsRewritable e] ∧
    OutlineFilter.OutlineScript env t e content = t ++ [Call.IsRewritable e] :=
  ⟨OutlineStyle_not_rewritable env t e content hrw,
   OutlineScript_not_rewritable env t e content hrw⟩

/-- C22 witness: `<script type="text/javascript" defer="defer">` has a matching
type and its write would succeed, yet a not rewritable element is left alone. -/
theorem C22_witness_script_not_rewritable :
    notRewritableEnv.IsRewritable [] scriptTyped = false ∧
    OutlineFilter.typeMatches (scriptTyped.FirstAttributeWithName "type")
      "text/javascript" = true ∧
    OutlineFilter.writeWorked notRewritableEnv [] scriptTyped
      ContentType.kContentTypeJavascript = true ∧
    OutlineFilter.OutlineScript notRewritableEnv [] scriptTyped "f()" =
      [] ++ [Call.IsRewritable scriptTyped] :=
  ⟨by decide, by decide, by decide,
   (C22_not_rewritable_element_is_untouched notRewritableEnv [] scriptTyped "f()"
      (by decide)).2⟩

/-- C23: OutlineFilter::WriteResource issues StartWrite, WriteChunk and EndWrite
in that order whatever the earlier steps answered, and returns true exactly when
all three answered true.  WriteBytesWithExtension stops at the first step that
answers false, and its `written` has the same value: the conjunction of the
three answers. -/
theorem C23_WriteResource_unconditional_and_same_success_value
    (env : Collaborators) (t : List Call) (content_type : ContentType)
    (content : String) (src : Attribute) (r : OutputResource) :
    (OutlineFilter.WriteResource t content r).2 =
      t ++ [Call.StartWrite r, Call.WriteChunk r content, Call.EndWrite r] ∧
    ((OutlineFilter.WriteResource t content r).1 = true ↔
      r.StartWrite = true ∧ r.WriteChunk = true ∧ r.EndWrite = true) ∧
    (OutlineFilter.WriteResource t content r).1 = ImgRewriteFilter.written r ∧
    (ImgRewriteFilter.WriteBytesWithExtension env t content_type content src).1 =
      (if (ImgRewriteFilter.written (env.GenerateOutputResource t content_type) &&
           (env.GenerateOutputResource t content_type).IsReadable) = true
       then { src with value := (env.GenerateOutputResource t content_type).url }
       else src) ∧
    ((env.GenerateOutputResource t content_type).StartWrite = false →
      (ImgRewriteFilter.WriteBytesWithExtension env t content_type content src).2 =
        t ++ [Call.GenerateOutputResource content_type
                (env.GenerateOutputResource t content_type),
              Call.StartWrite (env.GenerateOutputResource t content_type)]) ∧
    ((env.GenerateOutputResource t content_type).StartWrite = true →
      (env.GenerateOutputResource t content_type).WriteChunk = false →
      (ImgRewriteFilter.WriteBytesWithExtension env t content_type content src).2 =
        t ++ [Call.GenerateOutputResource content_type
                (env.GenerateOutputResource t content_type),
              Call.StartWrite (env.GenerateOutputResource t content_type),
              Call.WriteChunk (env.GenerateOutputResource t content_type) content]) := by
  refine ⟨WriteResource_snd t content r, ?_, ?_, ?_, ?_, ?_⟩
  · rw [WriteResource_fst]
    simp [Bool.and_eq_true, and_assoc]
  · rw [WriteResource_fst, written_eq]
  · rw [WriteBytesWithExtension_fst, written_eq]
  · intro h1
    rw [WriteBytesWithExtension_snd]
    simp [ImgRewriteFilter.writeCalls, h1]
  · intro h1 h2
    rw [WriteBytesWithExtension_snd]
    simp [ImgRewriteFilter.writeCalls, h1, h2]

/-- C21 witness: `<script>` is buffered with text, then a comment arrives: the
filter is Idle and its buffer is empty. -/
theorem C21_witness_comment_resets_buffer :
    (OutlineFilter.run demoEnv (OutlineFilter.new true true, [])
      [Event.StartElement scriptInline, Event.Characters "f()",
       Event.Comment "c"]).1.inline_element_ = none ∧
    (OutlineFilter.run demoEnv (OutlineFilter.new true true, [])
      [Event.StartElement scriptInline, Event.Characters "f()",
       Event.Comment "c"]).1.buffer_ = "" :=
  ⟨by decide,
   (C21_idle_filter_has_empty_buffer demoEnv true true (OutlineFilter.new true true) []
      [Event.StartElement scriptInline, Event.Characters "f()", Event.Comment "c"]
      (OutlineFilter.new true true, []) Event.Flush "").1 (by decide)⟩

/-- C23 witness: on a resource whose WriteChunk answers false, WriteResource
still issues EndWrite and returns false, while WriteBytesWithExtension stops
after WriteChunk. -/
theorem C23_witness_failed_chunk :
    (OutlineFilter.WriteResource [] "a:b" ⟨true, false, true, true, "http://out/1"⟩).2 =
      [] ++ [Call.StartWrite ⟨true, false, true, true, "http://out/1"⟩,
             Call.WriteChunk ⟨true, false, true, true, "http://out/1"⟩ "a:b",
             Call.EndWrite ⟨true, false, true, true, "http://out/1"⟩] ∧
    (OutlineFilter.WriteResource [] "a:b" ⟨true, false, true, true, "http://out/1"⟩).1 =
      ImgRewriteFilter.written ⟨true, false, true, true, "http://out/1"⟩ ∧
    (ImgRewriteFilter.WriteBytesWithExtension failingWriteEnv []
        ContentType.kContentTypePng "a:b" ⟨"src", "a.png", "\""⟩).2 =
      [] ++ [Call.GenerateOutputResource ContentType.kContentTypePng
               (failingWriteEnv.GenerateOutputResource [] ContentType.kContentTypePng),
             Call.StartWrite
               (failingWriteEnv.GenerateOutputResource [] ContentType.kContentTypePng),
             Call.WriteChunk
               (failingWriteEnv.GenerateOutputResource [] ContentType.kContentTypePng)
               "a:b"] :=
  ⟨(C23_WriteResource_unconditional_and_same_success_value failingWriteEnv []
      ContentType.kContentTypePng "a:b" ⟨"src", "a.png", "\""⟩
      ⟨true, false, true, true, "http://out/1"⟩).1,
   (C23_WriteResource_unconditional_and_same_success_value failingWriteEnv []
      ContentType.kContentTypePng "a:b" ⟨"src", "a.png", "\""⟩
      ⟨true, false, true, true, "http://out/1"⟩).2.2.1,
   (C23_WriteResource_unconditional_and_same_success_value failingWriteEnv []
      ContentType.kContentTypePng "a:b" ⟨"src", "a.png", "\""⟩
      ⟨true, false, true, true, "http://out/1"⟩).2.2.2.2.2 (by decide) (by decide)⟩

end net_instaweb
